import Mathlib

/-!
# ISO connected benchmark (`samples/bluetooth/iso_connected_benchmark/src/main.c`)

A shallow embedding of the sample's statistics tracker, configuration prompts and
session orchestration, followed by theorems about them.

Conventions of the embedding

* File-scope and function-scope `static` variables are the fields of `Globals`.
* Unsigned machine integers are `Nat` with an explicit reduction modulo `2 ^ w` at every
  operation that can overflow; `int` results are `Int`.
* Constants that come from Kconfig or from headers (`CONFIG_BT_ISO_MAX_CHAN`, `EINVAL`,
  `BT_GAP_LE_PHY_2M`, ...) are fields of `Config`: every theorem holds for all their values
  unless it states a hypothesis on them.
* Calls into the Bluetooth stack and the console are not modelled; their results are
  arguments of the embedded functions.
-/

namespace IsoBenchmark

/-! ## Data model -/

/-- Kconfig values and header constants that `main.c` uses but does not define. -/
structure Config where
  CONFIG_BT_ISO_MAX_CHAN : Nat
  CONFIG_BT_ISO_TX_MTU : Nat
  BT_GAP_LE_PHY_1M : Nat
  BT_GAP_LE_PHY_2M : Nat
  BT_GAP_LE_PHY_CODED : Nat
  BT_ISO_FLAGS_VALID : Nat
  EINVAL : Nat
  ENOMEM : Nat
  EBUSY : Nat
  EAGAIN : Nat
  SIZE_MAX : Nat
  deriving DecidableEq, Repr

/-- The values Zephyr gives these constants (two CIS channels, MTU 251); used for concrete runs. -/
def zephyr_config : Config :=
  { CONFIG_BT_ISO_MAX_CHAN := 2
    CONFIG_BT_ISO_TX_MTU := 251
    BT_GAP_LE_PHY_1M := 1
    BT_GAP_LE_PHY_2M := 2
    BT_GAP_LE_PHY_CODED := 4
    BT_ISO_FLAGS_VALID := 1
    EINVAL := 22
    ENOMEM := 12
    EBUSY := 16
    EAGAIN := 11
    SIZE_MAX := 4294967295 }

/-- Reduction to `uint8_t`. -/
def u8 (n : Nat) : Nat := n % 256

/-- Reduction to `uint32_t`. -/
def u32 (n : Nat) : Nat := n % 4294967296

/-- Reduction to `uint64_t`. -/
def u64 (n : Nat) : Nat := n % 18446744073709551616

/-- Conversion of a signed 64-bit value to `uint64_t`. -/
def int_to_u64 (x : Int) : Nat := (x % 18446744073709551616).toNat

/-- Reduction to `size_t`, whose largest value is `SIZE_MAX`. -/
def size_t (cfg : Config) (n : Nat) : Nat := n % (cfg.SIZE_MAX + 1)

/-- Conversion of an unsigned value to a 32-bit `int`, the cast `(int)x`. -/
def to_int (n : Nat) : Int :=
  if n % 4294967296 < 2147483648 then Int.ofNat (n % 4294967296)
  else Int.ofNat (n % 4294967296) - 4294967296

/-- The record `struct iso_recv_stats` (two `uint32_t` counters). -/
structure iso_recv_stats where
  iso_recv_count : Nat
  iso_lost_count : Nat
  deriving DecidableEq, Repr

/-- The record `struct bt_iso_chan_io_qos`; the field widths are declared in the Bluetooth
headers, so the fields are unbounded here. -/
structure bt_iso_chan_io_qos where
  interval : Nat
  latency : Nat
  sdu : Nat
  phy : Nat
  rtn : Nat
  deriving DecidableEq, Repr

/-- The two pointers of `struct bt_iso_chan_qos` that the sample writes: `true` is the address
of `iso_tx_qos` (respectively `iso_rx_qos`), `false` is `NULL`. -/
structure bt_iso_chan_qos where
  tx : Bool
  rx : Bool
  deriving DecidableEq, Repr

/-- A kernel semaphore: its count and the limit given to `K_SEM_DEFINE`. -/
structure k_sem where
  count : Nat
  limit : Nat
  deriving DecidableEq, Repr

/-- The mutable state of `main.c`: its file-scope variables and the `static` locals of
`iso_recv`, `iso_disconnected` and `test_run_peripheral`. -/
structure Globals where
  role : Nat
  default_conn : Bool
  advertiser_found : Bool
  cis_create_count : Nat
  last_received_counter : Nat
  stats_current_conn : iso_recv_stats
  stats_overall : iso_recv_stats
  iso_conn_start_time : Int
  total_iso_conn_count : Nat
  iso_send_count : Nat
  sem_adv : k_sem
  sem_iso_accept : k_sem
  sem_iso_connected : k_sem
  sem_iso_disconnected : k_sem
  sem_connected : k_sem
  sem_disconnected : k_sem
  iso_tx_qos : bt_iso_chan_io_qos
  iso_rx_qos : bt_iso_chan_io_qos
  iso_qos : bt_iso_chan_qos
  stats_latest_arr : List Bool
  stats_latest_arr_pos : Nat
  average_duration : Nat
  initialized : Bool
  iso_send_work_scheduled : Bool
  deriving DecidableEq, Repr

def ROLE_CENTRAL : Nat := 0
def ROLE_PERIPHERAL : Nat := 1
def ROLE_QUIT : Nat := 2

def DEFAULT_CIS_RTN : Nat := 0
def DEFAULT_CIS_INTERVAL_US : Nat := 7500
def DEFAULT_CIS_LATENCY_MS : Nat := 10
def DEFAULT_CIS_PHY (cfg : Config) : Nat := cfg.BT_GAP_LE_PHY_2M
def DEFAULT_CIS_SDU (cfg : Config) : Nat := cfg.CONFIG_BT_ISO_TX_MTU
def DEFAULT_CIS_COUNT (cfg : Config) : Nat := cfg.CONFIG_BT_ISO_MAX_CHAN

/-- Number of elements of `stats_latest_arr` (`static bool stats_latest_arr[1000]`); with
one-byte `bool` this is also `sizeof(stats_latest_arr)`. -/
def STATS_LATEST_ARR_SIZE : Nat := 1000

/-- The state at program start: the initialisers of lines 50-96, zero for everything else. -/
def initial_globals (cfg : Config) : Globals :=
  { role := 0
    default_conn := false
    advertiser_found := false
    cis_create_count := u8 (DEFAULT_CIS_COUNT cfg)
    last_received_counter := 0
    stats_current_conn := ⟨0, 0⟩
    stats_overall := ⟨0, 0⟩
    iso_conn_start_time := 0
    total_iso_conn_count := 0
    iso_send_count := 0
    sem_adv := ⟨0, 1⟩
    sem_iso_accept := ⟨0, 1⟩
    sem_iso_connected := ⟨0, cfg.CONFIG_BT_ISO_MAX_CHAN⟩
    sem_iso_disconnected := ⟨0, cfg.CONFIG_BT_ISO_MAX_CHAN⟩
    sem_connected := ⟨0, 1⟩
    sem_disconnected := ⟨0, 1⟩
    iso_tx_qos :=
      { interval := DEFAULT_CIS_INTERVAL_US, latency := DEFAULT_CIS_LATENCY_MS,
        sdu := DEFAULT_CIS_SDU cfg, rtn := DEFAULT_CIS_RTN, phy := DEFAULT_CIS_PHY cfg }
    iso_rx_qos :=
      { interval := DEFAULT_CIS_INTERVAL_US, latency := DEFAULT_CIS_LATENCY_MS,
        sdu := DEFAULT_CIS_SDU cfg, rtn := DEFAULT_CIS_RTN, phy := DEFAULT_CIS_PHY cfg }
    iso_qos := { tx := true, rx := true }
    stats_latest_arr := List.replicate STATS_LATEST_ARR_SIZE false
    stats_latest_arr_pos := 0
    average_duration := 0
    initialized := false
    iso_send_work_scheduled := false }

/-! ## Kernel semaphores -/

/-- Modelled from the spec: `k_sem_give` of the Zephyr kernel, which is not part of the sample.
The spec calls the semaphores counted rendezvous points; a give adds one to the count, which
never exceeds the limit of `K_SEM_DEFINE`. -/
def k_sem_give (s : k_sem) : k_sem :=
  if s.count < s.limit then { s with count := s.count + 1 } else s

/-- Modelled from the spec: `k_sem_take` of the Zephyr kernel at the moment it is tried: it
takes one unit when the count is positive (`some`), and cannot take otherwise (`none`). -/
def k_sem_take (s : k_sem) : Option k_sem :=
  if 0 < s.count then some { s with count := s.count - 1 } else none

/-- Modelled from the spec: `k_sem_reset` of the Zephyr kernel: the count returns to zero. -/
def k_sem_reset (s : k_sem) : k_sem := { s with count := 0 }

/-! ## Statistics tracker -/

/-- The values `print_stats` logs: received, total (a `uint32_t` sum) and lost; the percentage is
a floating-point quotient of the first two and is left out. -/
def print_stats (stats : iso_recv_stats) : Nat × Nat × Nat :=
  (stats.iso_recv_count, u32 (stats.iso_recv_count + stats.iso_lost_count), stats.iso_lost_count)

/-- The three lines of a statistics report of `iso_recv`. -/
structure stats_report where
  overall : Nat × Nat × Nat
  current : Nat × Nat × Nat
  latest : Nat × Nat × Nat
  stats_latest : iso_recv_stats
  deriving DecidableEq, Repr

/-- The loop of lines 208-218, `for (i = 0; i < ARRAY_SIZE(stats_latest_arr); i++)`, entered
at index `i` with `remaining = ARRAY_SIZE - i` iterations left. -/
def stats_latest_loop (arr : List Bool) (total_packets : Nat) :
    Nat → Nat → iso_recv_stats → iso_recv_stats
  | 0, _, stats_latest => stats_latest
  | remaining + 1, i, stats_latest =>
    if i = total_packets then stats_latest
    else if arr.getD i false then
      stats_latest_loop arr total_packets remaining (i + 1)
        { stats_latest with iso_recv_count := u32 (stats_latest.iso_recv_count + 1) }
    else
      stats_latest_loop arr total_packets remaining (i + 1)
        { stats_latest with iso_lost_count := u32 (stats_latest.iso_lost_count + 1) }

/-- The callback `iso_recv` (lines 179-225); `flags` is `info->flags`. The second component is
the report logged by this call, if any. -/
def iso_recv (cfg : Config) (g : Globals) (flags : Nat) : Globals × Option stats_report :=
  let g1 : Globals :=
    if flags = cfg.BT_ISO_FLAGS_VALID then
      { g with
        stats_current_conn :=
          { g.stats_current_conn with
            iso_recv_count := u32 (g.stats_current_conn.iso_recv_count + 1) }
        stats_overall :=
          { g.stats_overall with iso_recv_count := u32 (g.stats_overall.iso_recv_count + 1) }
        stats_latest_arr := g.stats_latest_arr.set g.stats_latest_arr_pos true
        stats_latest_arr_pos := g.stats_latest_arr_pos + 1 }
    else
      { g with
        stats_current_conn :=
          { g.stats_current_conn with
            iso_lost_count := u32 (g.stats_current_conn.iso_lost_count + 1) }
        stats_overall :=
          { g.stats_overall with iso_lost_count := u32 (g.stats_overall.iso_lost_count + 1) }
        stats_latest_arr := g.stats_latest_arr.set g.stats_latest_arr_pos false
        stats_latest_arr_pos := g.stats_latest_arr_pos + 1 }
  let g2 : Globals :=
    if g1.stats_latest_arr_pos = STATS_LATEST_ARR_SIZE then { g1 with stats_latest_arr_pos := 0 }
    else g1
  let total_packets := u32 (g2.stats_overall.iso_recv_count + g2.stats_overall.iso_lost_count)
  if total_packets % 100 = 0 then
    let stats_latest :=
      stats_latest_loop g2.stats_latest_arr total_packets STATS_LATEST_ARR_SIZE 0 ⟨0, 0⟩
    (g2, some
      { overall := print_stats g2.stats_overall
        current := print_stats g2.stats_current_conn
        latest := print_stats stats_latest
        stats_latest := stats_latest })
  else (g2, none)

/-- The function `reset_sems` (lines 802-810). -/
def reset_sems (g : Globals) : Globals :=
  { g with
    sem_adv := k_sem_reset g.sem_adv
    sem_iso_accept := k_sem_reset g.sem_iso_accept
    sem_iso_connected := k_sem_reset g.sem_iso_connected
    sem_iso_disconnected := k_sem_reset g.sem_iso_disconnected
    sem_connected := k_sem_reset g.sem_connected
    sem_disconnected := k_sem_reset g.sem_disconnected }

/-- The opening statements of `test_run_central` (lines 817-820). -/
def test_run_central_reset (g : Globals) : Globals :=
  reset_sems
    { g with
      iso_conn_start_time := 0
      last_received_counter := 0
      stats_current_conn := ⟨0, 0⟩ }

/-- The opening statements of `test_run_peripheral` (lines 905-909). -/
def test_run_peripheral_reset (g : Globals) : Globals :=
  reset_sems
    { g with
      cis_create_count := 0
      iso_conn_start_time := 0
      last_received_counter := 0
      stats_current_conn := ⟨0, 0⟩ }

/-- One step of the receive-side history: a delivered packet or the start of a session. -/
inductive StatsOp where
  | recv (flags : Nat)
  | central_session
  | peripheral_session
  deriving DecidableEq, Repr

/-- The effect of one `StatsOp` on the globals. -/
def StatsOp.apply (cfg : Config) (g : Globals) : StatsOp → Globals
  | .recv flags => (iso_recv cfg g flags).1
  | .central_session => test_run_central_reset g
  | .peripheral_session => test_run_peripheral_reset g

/-- The globals after a history of packets and session starts. -/
def run_stats (cfg : Config) (g : Globals) (ops : List StatsOp) : Globals :=
  ops.foldl (StatsOp.apply cfg) g

/-- Number of `iso_recv` calls in a history. -/
def recv_calls : List StatsOp → Nat
  | [] => 0
  | .recv _ :: ops => recv_calls ops + 1
  | _ :: ops => recv_calls ops

/-- Number of `iso_recv` calls after the last session start of a history, given the number `acc`
of such calls before the history. -/
def recv_calls_since_reset (acc : Nat) : List StatsOp → Nat
  | [] => acc
  | .recv _ :: ops => recv_calls_since_reset (acc + 1) ops
  | _ :: ops => recv_calls_since_reset 0 ops

/-- Whether `info->flags` classifies a packet as valid, the test of line 189. -/
def flags_valid (cfg : Config) (flags : Nat) : Bool := decide (flags = cfg.BT_ISO_FLAGS_VALID)

/-- A sequence of `iso_recv` calls, one per element of `calls`: the final globals and the report
logged by the last call (`none` when the last call logged nothing or there was no call). -/
def iso_recv_calls (cfg : Config) (g : Globals) (calls : List Nat) : Globals × Option stats_report :=
  calls.foldl (fun acc flags => iso_recv cfg acc.1 flags) (g, none)

/-- The most recent `min n 1000` elements of a history of `n` calls. -/
def latest_window (calls : List Nat) : List Nat :=
  calls.drop (calls.length - min calls.length STATS_LATEST_ARR_SIZE)

/-! ## Connection-duration average and the stream callbacks -/

/-- Why an embedded run stopped without a result. -/
inductive Halt where
  | division_by_zero
  deriving DecidableEq, Repr

/-- The arithmetic of lines 256-258 of `iso_disconnected`: the new `average_duration` from
`total_iso_conn_count`, the old average and `iso_conn_duration`. `average_duration` is kept as
its 64-bit pattern (the sum is formed in `uint64_t` and the log prints it with `%llu`). The
division by `total_iso_conn_count` has no result when that count is zero. -/
def iso_disconnected_average (total_iso_conn_count average_duration iso_conn_duration : Nat) :
    Option Nat :=
  if total_iso_conn_count = 0 then none
  else
    let total_duration :=
      u64 (iso_conn_duration + u64 ((total_iso_conn_count - 1) * average_duration))
    some (total_duration / total_iso_conn_count)

/-- The callback `iso_connected` (lines 227-237); `now` is the value of `k_uptime_get()`. -/
def iso_connected (g : Globals) (now : Int) : Globals :=
  { g with
    iso_conn_start_time := now
    sem_iso_connected := k_sem_give g.sem_iso_connected }

/-- The callback `iso_disconnected` (lines 239-265); `now` is the value of `k_uptime_get()`. -/
def iso_disconnected (g : Globals) (now : Int) : Except Halt Globals :=
  let iso_conn_duration : Nat :=
    if g.iso_conn_start_time > 0 then int_to_u64 (now - g.iso_conn_start_time) else 0
  match iso_disconnected_average g.total_iso_conn_count g.average_duration iso_conn_duration with
  | none => .error .division_by_zero
  | some average =>
    .ok { g with
          average_duration := average
          sem_iso_disconnected := k_sem_give g.sem_iso_disconnected }

/-- The acceptor `iso_accept` (lines 273-293). `chan_disconnected i` tells whether the stack
holds `iso_chans[i]` in state `BT_ISO_DISCONNECTED`. The result is the return value and the index
of the channel handed to the stack. -/
def iso_accept (cfg : Config) (g : Globals) (chan_disconnected : Nat → Bool) :
    Globals × Int × Option Nat :=
  match (List.range cfg.CONFIG_BT_ISO_MAX_CHAN).find? chan_disconnected with
  | some i =>
    ({ g with
       cis_create_count := u8 (g.cis_create_count + 1)
       sem_iso_accept := k_sem_give g.sem_iso_accept }, 0, some i)
  | none => (g, -(cfg.ENOMEM : Int), none)

/-- The scan callback `scan_recv` (lines 346-373); `name_matches` is the outcome of comparing the
advertised name with `DEVICE_NAME`. -/
def scan_recv (g : Globals) (name_matches : Bool) : Globals :=
  if g.advertiser_found then g
  else if !name_matches then g
  else { g with advertiser_found := true, sem_adv := k_sem_give g.sem_adv }

/-- The connection callback `connected` (lines 379-398). -/
def connected (g : Globals) (err : Nat) : Globals :=
  if err ≠ 0 ∧ g.role = ROLE_CENTRAL then { g with default_conn := false }
  else
    let g1 : Globals := if g.role = ROLE_PERIPHERAL then { g with default_conn := true } else g
    { g1 with sem_connected := k_sem_give g1.sem_connected }

/-- The connection callback `disconnected` (lines 400-411). -/
def disconnected (g : Globals) : Globals :=
  { g with default_conn := false, sem_disconnected := k_sem_give g.sem_disconnected }

/-- The average after one update per connection, the `i`-th update made with
`total_iso_conn_count = i`; `n` updates have been made before the list. -/
def connection_averages : Nat → Nat → List Nat → Option Nat
  | _, average_duration, [] => some average_duration
  | n, average_duration, duration :: durations =>
    match iso_disconnected_average (n + 1) average_duration duration with
    | none => none
    | some average => connection_averages (n + 1) average durations

/-! ## Console prompts -/

/-- The answers to the five prompts of `parse_args`: `none` is an empty line, `some v` a line on
which `strtoul` returned `v`. -/
structure qos_answers where
  rtn : Option Nat
  interval : Option Nat
  latency : Option Nat
  phy : Option Nat
  sdu : Option Nat
  deriving DecidableEq, Repr

/-- The function `parse_rtn_arg` (lines 437-459). -/
def parse_rtn_arg (cfg : Config) : Option Nat → Int
  | none => DEFAULT_CIS_RTN
  | some rtn => if rtn > 16 then -(cfg.EINVAL : Int) else to_int rtn

/-- The function `parse_interval_arg` (lines 461-483). -/
def parse_interval_arg (cfg : Config) : Option Nat → Int
  | none => DEFAULT_CIS_INTERVAL_US
  | some interval =>
    if interval < 0x100 ∨ interval > 0xFFFFF then -(cfg.EINVAL : Int) else to_int interval

/-- The function `parse_latency_arg` (lines 485-507). -/
def parse_latency_arg (cfg : Config) : Option Nat → Int
  | none => DEFAULT_CIS_LATENCY_MS
  | some latency => if latency > 0xFA0 then -(cfg.EINVAL : Int) else to_int latency

/-- The function `parse_phy_arg` (lines 509-534). -/
def parse_phy_arg (cfg : Config) : Option Nat → Int
  | none => DEFAULT_CIS_PHY cfg
  | some phy =>
    if phy ≠ cfg.BT_GAP_LE_PHY_1M ∧ phy ≠ cfg.BT_GAP_LE_PHY_2M ∧ phy ≠ cfg.BT_GAP_LE_PHY_CODED
    then -(cfg.EINVAL : Int) else to_int phy

/-- The function `parse_sdu_arg` (lines 536-558); `sizeof(uint32_t)` is 4. -/
def parse_sdu_arg (cfg : Config) : Option Nat → Int
  | none => DEFAULT_CIS_SDU cfg
  | some sdu => if sdu > 0xFFF ∨ sdu < 4 then -(cfg.EINVAL : Int) else to_int sdu

/-- The function `parse_cis_count_arg` (lines 560-582). -/
def parse_cis_count_arg (cfg : Config) : Option Nat → Int
  | none => DEFAULT_CIS_COUNT cfg
  | some cis_count =>
    if cis_count > cfg.CONFIG_BT_ISO_MAX_CHAN then -(cfg.EINVAL : Int) else to_int cis_count

/-- The function `parse_args` (lines 584-626): the return value and the QoS structure after the
call. -/
def parse_args (cfg : Config) (qos : bt_iso_chan_io_qos) (a : qos_answers) :
    Int × bt_iso_chan_io_qos :=
  let rtn := parse_rtn_arg cfg a.rtn
  if rtn < 0 then (-(cfg.EINVAL : Int), qos)
  else
    let interval := parse_interval_arg cfg a.interval
    if interval < 0 then (-(cfg.EINVAL : Int), qos)
    else
      let latency := parse_latency_arg cfg a.latency
      if latency < 0 then (-(cfg.EINVAL : Int), qos)
      else
        let phy := parse_phy_arg cfg a.phy
        if phy < 0 then (-(cfg.EINVAL : Int), qos)
        else
          let sdu := parse_sdu_arg cfg a.sdu
          if sdu < 0 then (-(cfg.EINVAL : Int), qos)
          else
            (0, { rtn := rtn.toNat, interval := interval.toNat, latency := latency.toNat,
                  phy := phy.toNat, sdu := sdu.toNat })

/-- The console input of one `change_central_settings` call: the character read at each yes/no
question and the lines typed at the numeric prompts. Answers to questions the call does not reach
are not read. -/
structure central_answers where
  change_tx : Char
  disable_tx : Char
  tx_args : qos_answers
  change_rx : Char
  disable_rx : Char
  rx_as_tx : Char
  rx_args : qos_answers
  change_cis_count : Char
  cis_count : Option Nat
  deriving DecidableEq, Repr

/-- The test `c == 'y' || c == 'Y'`. -/
def is_yes (c : Char) : Bool := c = 'y' || c = 'Y'

/-- The last question of `change_central_settings` (lines 702-716). -/
def change_cis_count (cfg : Config) (g : Globals) (a : central_answers) : Int × Globals :=
  if is_yes a.change_cis_count then
    let cis_count := parse_cis_count_arg cfg a.cis_count
    if cis_count < 0 then (-(cfg.EINVAL : Int), g)
    else (0, { g with cis_create_count := u8 cis_count.toNat })
  else (0, g)

/-- The RX questions of `change_central_settings` and what follows them (lines 661-716). -/
def change_rx_settings (cfg : Config) (g : Globals) (a : central_answers) : Int × Globals :=
  if is_yes a.change_rx then
    if is_yes a.disable_rx then
      if g.iso_qos.tx = false then (-(cfg.EINVAL : Int), g)
      else change_cis_count cfg { g with iso_qos := { g.iso_qos with rx := false } } a
    else if a.rx_as_tx = 'n' || a.rx_as_tx = 'N' then
      let r := parse_args cfg g.iso_rx_qos a.rx_args
      if r.1 ≠ 0 then (r.1, { g with iso_rx_qos := r.2 })
      else change_cis_count cfg { g with iso_rx_qos := r.2 } a
    else change_cis_count cfg { g with iso_rx_qos := g.iso_tx_qos } a
  else change_cis_count cfg g a

/-- The function `change_central_settings` (lines 628-717). -/
def change_central_settings (cfg : Config) (g : Globals) (a : central_answers) : Int × Globals :=
  if is_yes a.change_tx then
    if is_yes a.disable_tx then
      change_rx_settings cfg { g with iso_qos := { g.iso_qos with tx := false } } a
    else
      let g1 : Globals := { g with iso_qos := { g.iso_qos with tx := true } }
      let r := parse_args cfg g1.iso_tx_qos a.tx_args
      if r.1 ≠ 0 then (r.1, { g1 with iso_tx_qos := r.2 })
      else change_rx_settings cfg { g1 with iso_tx_qos := r.2 } a
  else change_rx_settings cfg g a

/-- A sequence of `change_central_settings` calls, whatever each returns. -/
def change_central_settings_calls (cfg : Config) (g : Globals) (calls : List central_answers) :
    Globals :=
  calls.foldl (fun g a => (change_central_settings cfg g a).2) g

/-- Five empty lines at the prompts of `parse_args`. -/
def qos_answers_default : qos_answers := ⟨none, none, none, none, none⟩

/-- The user changes nothing: `n` at each question of `change_central_settings`. -/
def answers_keep : central_answers :=
  { change_tx := 'n', disable_tx := 'n', tx_args := qos_answers_default,
    change_rx := 'n', disable_rx := 'n', rx_as_tx := 'y', rx_args := qos_answers_default,
    change_cis_count := 'n', cis_count := none }

/-- The user disables RX and changes nothing else. -/
def answers_disable_rx : central_answers :=
  { answers_keep with change_rx := 'y', disable_rx := 'y' }

/-- The user disables TX and changes nothing else. -/
def answers_disable_tx : central_answers :=
  { answers_keep with change_tx := 'y', disable_tx := 'y' }

/-- The user changes only the CIS count, typing `line` at its prompt. -/
def answers_cis_count (line : Option Nat) : central_answers :=
  { answers_keep with change_cis_count := 'y', cis_count := line }

/-! ## Session orchestration

The orchestrator thread blocks on semaphores that the stack's callbacks give. A run of the program
is a sequence of labels: a callback, or a stretch of the thread from one blocking call to the
next. The return values of the stack functions called in a stretch are part of its label. -/

/-- Return values of the Bluetooth stack functions that the orchestrator calls. -/
structure stack_results where
  bt_le_scan_start : Int
  bt_le_scan_stop : Int
  bt_conn_le_create : Int
  bt_iso_chan_bind : Int
  bt_iso_chan_connect : Int
  bt_iso_server_register : Int
  bt_le_adv_start : Int
  bt_conn_disconnect : Int
  bt_iso_chan_disconnect : Nat → Int

/-- A stack on which every request succeeds. -/
def stack_ok : stack_results :=
  { bt_le_scan_start := 0, bt_le_scan_stop := 0, bt_conn_le_create := 0, bt_iso_chan_bind := 0,
    bt_iso_chan_connect := 0, bt_iso_server_register := 0, bt_le_adv_start := 0,
    bt_conn_disconnect := 0, bt_iso_chan_disconnect := fun _ => 0 }

/-- The loop of `peripheral_cleanup` (lines 885-894) entered at index `i` with
`remaining = cis_create_count - i` iterations left and `err` as left by the code before. The last
component lists the indices passed to `bt_iso_chan_disconnect`, in order. -/
def peripheral_cleanup_loop (cfg : Config) (r : stack_results) :
    Nat → Nat → Globals → Int → List Nat → Int × Globals × List Nat
  | 0, _, g, err, requested => (err, g, requested)
  | remaining + 1, i, g, _, requested =>
    match k_sem_take g.sem_iso_disconnected with
    | some sem =>
      peripheral_cleanup_loop cfg r remaining (i + 1) { g with sem_iso_disconnected := sem } 0
        requested
    | none =>
      let err : Int := -(cfg.EBUSY : Int)
      if err ≠ 0 then
        let err := r.bt_iso_chan_disconnect i
        if err ≠ 0 then (err, g, requested ++ [i])
        else peripheral_cleanup_loop cfg r remaining (i + 1) g err (requested ++ [i])
      else peripheral_cleanup_loop cfg r remaining (i + 1) g err requested

/-- The function `peripheral_cleanup` (lines 871-897): its return value, the globals after it and
the indices of the channels for which it called `bt_iso_chan_disconnect`. A `k_sem_take` with
`K_NO_WAIT` returns 0 when it takes the semaphore and `-EBUSY` when it cannot. -/
def peripheral_cleanup (cfg : Config) (g : Globals) (r : stack_results) :
    Int × Globals × List Nat :=
  match k_sem_take g.sem_disconnected with
  | some sem =>
    peripheral_cleanup_loop cfg r g.cis_create_count 0 { g with sem_disconnected := sem } 0 []
  | none =>
    let err : Int := -(cfg.EBUSY : Int)
    if err ≠ 0 then
      let err := r.bt_conn_disconnect
      if err ≠ 0 then (err, g, [])
      else peripheral_cleanup_loop cfg r g.cis_create_count 0 g err []
    else peripheral_cleanup_loop cfg r g.cis_create_count 0 g err []

/-- The blocking call at which the orchestrator thread stands. -/
inductive program_point where
  | role_select
  | central_wait_adv
  | central_wait_connected
  | central_wait_iso_connected (i : Nat)
  | central_active
  | central_wait_iso_disconnected (i : Nat)
  | peripheral_wait_connected
  | peripheral_wait_iso_accept
  | peripheral_wait_iso_connected (i : Nat)
  | peripheral_active
  | peripheral_wait_iso_disconnected (i : Nat)
  deriving DecidableEq, Repr

/-- The program state: the globals, where the thread stands, and the value of the last
`Test complete: %d` line of `main`. -/
structure system where
  g : Globals
  pc : program_point
  test_complete : Option Int
  deriving DecidableEq, Repr

/-- The state in which `main` reaches its role loop for the first time. -/
def initial_system (cfg : Config) : system :=
  { g := initial_globals cfg, pc := .role_select, test_complete := none }

/-- A callback of the stack, with the values it reads from its arguments and from the clock. -/
inductive callback where
  | connected (err : Nat)
  | disconnected
  | scan_recv (name_matches : Bool)
  | iso_accept (chan_disconnected : Nat → Bool)
  | iso_connected (now : Int)
  | iso_disconnected (now : Int)
  | iso_recv (flags : Nat)

/-- The effect of a callback on the globals. -/
def deliver (cfg : Config) (g : Globals) : callback → Except Halt Globals
  | .connected err => .ok (connected g err)
  | .disconnected => .ok (disconnected g)
  | .scan_recv name_matches => .ok (scan_recv g name_matches)
  | .iso_accept chan_disconnected => .ok (iso_accept cfg g chan_disconnected).1
  | .iso_connected now => .ok (iso_connected g now)
  | .iso_disconnected now => iso_disconnected g now
  | .iso_recv flags => .ok (iso_recv cfg g flags).1

/-- One label of a run. -/
inductive label where
  | select_role (role : Nat) (change_settings : Char) (answers : central_answers)
      (r : stack_results)
  | proceed (r : stack_results)
  | timeout (r : stack_results)
  | callback (c : callback)

/-- A test function returns `err` to `main`, which logs it and asks for a role again
(lines 1020-1038). -/
def test_return (g : Globals) (err : Int) : system :=
  { g := g, pc := .role_select, test_complete := some err }

/-- The loop of `central_create_cis` at lines 791-797, at its test with index `i`, and after it
the return to `test_run_central`, which starts the transmit work (lines 845-848). -/
def central_iso_connected_loop (g : Globals) (last : Option Int) (i : Nat) : system :=
  if i < g.cis_create_count then
    { g := g, pc := .central_wait_iso_connected i, test_complete := last }
  else
    { g := { g with iso_send_work_scheduled := true }, pc := .central_active,
      test_complete := last }

/-- The loop of `test_run_central` at lines 855-862, at its test with index `i`, and the end of
the function after it (lines 864-868). -/
def central_iso_disconnected_loop (g : Globals) (last : Option Int) (i : Nat) : system :=
  if i < g.cis_create_count then
    { g := g, pc := .central_wait_iso_disconnected i, test_complete := last }
  else test_return { g with iso_send_work_scheduled := false } 0

/-- The loop of `test_run_peripheral` at lines 946-952, at its test with index `i`, and after it
lines 953-959. -/
def peripheral_iso_connected_loop (cfg : Config) (g : Globals) (last : Option Int) (i : Nat) :
    system :=
  if i < g.cis_create_count then
    { g := g, pc := .peripheral_wait_iso_connected i, test_complete := last }
  else
    { g := { g with
             total_iso_conn_count := size_t cfg (g.total_iso_conn_count + 1)
             iso_send_work_scheduled := true },
      pc := .peripheral_active, test_complete := last }

/-- The loop of `test_run_peripheral` at lines 965-971, at its test with index `i`, and the end of
the function after it (lines 973-976). -/
def peripheral_iso_disconnected_loop (g : Globals) (last : Option Int) (i : Nat) : system :=
  if i < g.cis_create_count then
    { g := g, pc := .peripheral_wait_iso_disconnected i, test_complete := last }
  else test_return { g with iso_send_work_scheduled := false } 0

/-- The start of `test_run_central` up to its first blocking call, the `k_sem_take(&sem_adv)` of
`central_create_connection` (lines 812-832 and 719-732). -/
def test_run_central_start (cfg : Config) (g : Globals) (last : Option Int)
    (change_settings : Char) (answers : central_answers) (r : stack_results) : system :=
  let g1 := test_run_central_reset g
  let settings : Int × Globals :=
    if is_yes change_settings then change_central_settings cfg g1 answers else (0, g1)
  if settings.1 ≠ 0 then test_return settings.2 settings.1
  else
    let g2 : Globals := { settings.2 with advertiser_found := false }
    if r.bt_le_scan_start ≠ 0 then test_return g2 r.bt_le_scan_start
    else { g := g2, pc := .central_wait_adv, test_complete := last }

/-- The start of `test_run_peripheral` up to its first blocking call, the
`k_sem_take(&sem_connected)` of line 929 (lines 899-929). -/
def test_run_peripheral_start (g : Globals) (last : Option Int) (r : stack_results) : system :=
  let g1 := test_run_peripheral_reset g
  if !g1.initialized ∧ r.bt_iso_server_register ≠ 0 then test_return g1 r.bt_iso_server_register
  else
    let g2 : Globals := { g1 with initialized := true }
    if r.bt_le_adv_start ≠ 0 then test_return g2 r.bt_le_adv_start
    else { g := g2, pc := .peripheral_wait_connected, test_complete := last }

/-- The code of `test_run_peripheral` after the `k_sem_take(&sem_iso_accept, K_SECONDS(2))` of
line 937 has returned `err` (lines 938-946). -/
def test_run_peripheral_after_accept (cfg : Config) (g : Globals) (last : Option Int) (err : Int)
    (r : stack_results) : system :=
  if err ≠ 0 then
    let cleanup := peripheral_cleanup cfg g r
    test_return cleanup.2.1 cleanup.1
  else peripheral_iso_connected_loop cfg g last 0

/-- The thread obtains the semaphore it waits for and runs to its next blocking call. `none` when
the semaphore is not available. A `k_sem_take` with `K_FOREVER` returns only with the
semaphore. -/
def proceed (cfg : Config) (s : system) (r : stack_results) : Option system :=
  match s.pc with
  | .role_select => none
  | .central_wait_adv =>
    (k_sem_take s.g.sem_adv).map fun sem =>
      let g : Globals := { s.g with sem_adv := sem }
      if r.bt_le_scan_stop ≠ 0 then test_return g r.bt_le_scan_stop
      else if r.bt_conn_le_create ≠ 0 then test_return g r.bt_conn_le_create
      else { g := { g with default_conn := true }, pc := .central_wait_connected,
             test_complete := s.test_complete }
  | .central_wait_connected =>
    (k_sem_take s.g.sem_connected).map fun sem =>
      let g : Globals := { s.g with sem_connected := sem, iso_conn_start_time := 0 }
      if r.bt_iso_chan_bind ≠ 0 then test_return g r.bt_iso_chan_bind
      else if r.bt_iso_chan_connect ≠ 0 then test_return g r.bt_iso_chan_connect
      else
        central_iso_connected_loop
          { g with total_iso_conn_count := size_t cfg (g.total_iso_conn_count + 1) }
          s.test_complete 0
  | .central_wait_iso_connected i =>
    (k_sem_take s.g.sem_iso_connected).map fun sem =>
      central_iso_connected_loop { s.g with sem_iso_connected := sem } s.test_complete (i + 1)
  | .central_active =>
    (k_sem_take s.g.sem_disconnected).map fun sem =>
      central_iso_disconnected_loop { s.g with sem_disconnected := sem } s.test_complete 0
  | .central_wait_iso_disconnected i =>
    (k_sem_take s.g.sem_iso_disconnected).map fun sem =>
      central_iso_disconnected_loop { s.g with sem_iso_disconnected := sem } s.test_complete
        (i + 1)
  | .peripheral_wait_connected =>
    (k_sem_take s.g.sem_connected).map fun sem =>
      { g := { s.g with sem_connected := sem }, pc := .peripheral_wait_iso_accept,
        test_complete := s.test_complete }
  | .peripheral_wait_iso_accept =>
    (k_sem_take s.g.sem_iso_accept).map fun sem =>
      test_run_peripheral_after_accept cfg { s.g with sem_iso_accept := sem } s.test_complete 0 r
  | .peripheral_wait_iso_connected i =>
    (k_sem_take s.g.sem_iso_connected).map fun sem =>
      peripheral_iso_connected_loop cfg { s.g with sem_iso_connected := sem } s.test_complete
        (i + 1)
  | .peripheral_active =>
    (k_sem_take s.g.sem_disconnected).map fun sem =>
      peripheral_iso_disconnected_loop { s.g with sem_disconnected := sem } s.test_complete 0
  | .peripheral_wait_iso_disconnected i =>
    (k_sem_take s.g.sem_iso_disconnected).map fun sem =>
      peripheral_iso_disconnected_loop { s.g with sem_iso_disconnected := sem } s.test_complete
        (i + 1)

/-- The two-second wait of line 937 ends without the semaphore: `k_sem_take` returns `-EAGAIN`.
`none` anywhere else, and when the semaphore is available. -/
def timeout (cfg : Config) (s : system) (r : stack_results) : Option system :=
  match s.pc with
  | .peripheral_wait_iso_accept =>
    match k_sem_take s.g.sem_iso_accept with
    | some _ => none
    | none =>
      some (test_run_peripheral_after_accept cfg s.g s.test_complete (-(cfg.EAGAIN : Int)) r)
  | _ => none

/-- One step of the program. `none`: the label is not enabled in this state. `some (.error _)`:
the step stops the program. -/
def step (cfg : Config) (s : system) : label → Option (Except Halt system)
  | .select_role role change_settings answers r =>
    match s.pc with
    | .role_select =>
      if role = ROLE_CENTRAL then
        some (.ok (test_run_central_start cfg { s.g with role := role } s.test_complete
          change_settings answers r))
      else if role = ROLE_PERIPHERAL then
        some (.ok (test_run_peripheral_start { s.g with role := role } s.test_complete r))
      else none
    | _ => none
  | .proceed r => (proceed cfg s r).map .ok
  | .timeout r => (timeout cfg s r).map .ok
  | .callback c =>
    match deliver cfg s.g c with
    | .ok g => some (.ok { s with g := g })
    | .error h => some (.error h)

/-- The state after a sequence of labels. `none`: some label was not enabled. -/
def run (cfg : Config) : system → List label → Option (Except Halt system)
  | s, [] => some (.ok s)
  | s, l :: ls =>
    match step cfg s l with
    | none => none
    | some (.error h) => some (.error h)
    | some (.ok s1) => run cfg s1 ls

/-- Number of `iso_connected` callbacks delivered since the last session start of a run, given
the number `acc` of them delivered in the current session before the run. -/
def iso_connected_events (acc : Nat) : List label → Nat
  | [] => acc
  | .select_role _ _ _ _ :: ls => iso_connected_events 0 ls
  | .callback (.iso_connected _) :: ls => iso_connected_events (acc + 1) ls
  | _ :: ls => iso_connected_events acc ls

/-- What the initiator's wait for stream connections maintains, with `d` the number of
`iso_connected` callbacks of the session so far: the units of `sem_iso_connected` already taken
by the loop of `central_create_cis` and those still in the semaphore were all given by one of
these callbacks. -/
def connected_accounted (s : system) (d : Nat) : Prop :=
  match s.pc with
  | .central_wait_adv => s.g.sem_iso_connected.count ≤ d
  | .central_wait_connected => s.g.sem_iso_connected.count ≤ d
  | .central_wait_iso_connected i => i + s.g.sem_iso_connected.count ≤ d
  | _ => True

/-! ## Transmit scheduler -/

/-- Subtraction of `uint32_t` values, as in `iso_tx_qos.interval - 100` (`interval` is a
`uint32_t` in `struct bt_iso_chan_io_qos`): the difference modulo 2^32. -/
def u32_sub (a b : Nat) : Nat := (a % 4294967296 + 4294967296 - b % 4294967296) % 4294967296

/-- A call that a transmit tick makes, in the order of the calls: the reschedule with its delay
in microseconds, a buffer allocation for stream `i` and whether it gave a buffer, a submission to
stream `i` of `len` bytes of `iso_data` with its return value, and the release of the buffer
allocated for stream `i`. -/
inductive tx_action where
  | k_work_reschedule (delay_us : Nat)
  | net_buf_alloc (i : Nat) (ok : Bool)
  | bt_iso_chan_send (i : Nat) (len : Nat) (ret : Int)
  | net_buf_unref (i : Nat)
  deriving DecidableEq, Repr

/-- The loop of `iso_timer_timeout` (lines 156-176) entered at index `i` with
`remaining = cis_create_count - i` iterations left. `alloc_ok i` tells whether `net_buf_alloc`
gives a buffer for stream `i`, `send_ret i` is the return value of `bt_iso_chan_send` for stream
`i`, `sdu` is `iso_tx_qos.sdu`. The result is `iso_send_count` and the calls made so far. -/
def iso_timer_timeout_loop (alloc_ok : Nat → Bool) (send_ret : Nat → Int) (sdu : Nat) :
    Nat → Nat → Nat → List tx_action → Nat × List tx_action
  | 0, _, iso_send_count, actions => (iso_send_count, actions)
  | remaining + 1, i, iso_send_count, actions =>
    if alloc_ok i = false then (iso_send_count, actions ++ [.net_buf_alloc i false])
    else
      let ret := send_ret i
      if ret < 0 then
        (iso_send_count,
          actions ++ [.net_buf_alloc i true, .bt_iso_chan_send i sdu ret, .net_buf_unref i])
      else
        iso_timer_timeout_loop alloc_ok send_ret sdu remaining (i + 1) (u32 (iso_send_count + 1))
          (actions ++ [.net_buf_alloc i true, .bt_iso_chan_send i sdu ret])

/-- The work handler `iso_timer_timeout` (lines 143-177): the globals after the tick and the
calls it made. -/
def iso_timer_timeout (g : Globals) (alloc_ok : Nat → Bool) (send_ret : Nat → Int) :
    Globals × List tx_action :=
  let r := iso_timer_timeout_loop alloc_ok send_ret g.iso_tx_qos.sdu g.cis_create_count 0
    g.iso_send_count [.k_work_reschedule (u32_sub g.iso_tx_qos.interval 100)]
  ({ g with iso_send_count := r.1, iso_send_work_scheduled := true }, r.2)

/-- The calls of `k` accepted submissions in a row, to the streams `i`, ..., `i + k - 1`. -/
def accepted_submissions (send_ret : Nat → Int) (sdu : Nat) : Nat → Nat → List tx_action
  | _, 0 => []
  | i, k + 1 =>
    .net_buf_alloc i true :: .bt_iso_chan_send i sdu (send_ret i)
      :: accepted_submissions send_ret sdu (i + 1) k

/-- The calls a tick makes at stream `j` when the tick stops there: a failed allocation, or an
allocation, the rejected submission and the release of the buffer. -/
def stopped_submission (alloc_ok : Nat → Bool) (send_ret : Nat → Int) (sdu j : Nat) :
    List tx_action :=
  if alloc_ok j = false then [.net_buf_alloc j false]
  else [.net_buf_alloc j true, .bt_iso_chan_send j sdu (send_ret j), .net_buf_unref j]

/-- The user changes only the TX settings, typing `line` at the SDU prompt and nothing at the
other four. -/
def answers_tx_sdu (line : Option Nat) : central_answers :=
  { answers_keep with
    change_tx := 'y', disable_tx := 'n', tx_args := { qos_answers_default with sdu := line } }

/-! ## Theorems -/

/-! ### Receive counters -/

theorem iso_recv_stats_overall_sum (cfg : Config) (g : Globals) (flags : Nat)
    (h : g.stats_overall.iso_recv_count + g.stats_overall.iso_lost_count + 1 < 4294967296) :
    (iso_recv cfg g flags).1.stats_overall.iso_recv_count
      + (iso_recv cfg g flags).1.stats_overall.iso_lost_count
      = g.stats_overall.iso_recv_count + g.stats_overall.iso_lost_count + 1 := by
  unfold iso_recv
  by_cases hv : flags = cfg.BT_ISO_FLAGS_VALID <;> simp only [hv, if_true, if_false, u32] <;>
    split_ifs <;> simp only [] <;> omega

theorem iso_recv_stats_current_sum (cfg : Config) (g : Globals) (flags : Nat)
    (h : g.stats_current_conn.iso_recv_count + g.stats_current_conn.iso_lost_count + 1
      < 4294967296) :
    (iso_recv cfg g flags).1.stats_current_conn.iso_recv_count
      + (iso_recv cfg g flags).1.stats_current_conn.iso_lost_count
      = g.stats_current_conn.iso_recv_count + g.stats_current_conn.iso_lost_count + 1 := by
  unfold iso_recv
  by_cases hv : flags = cfg.BT_ISO_FLAGS_VALID <;> simp only [hv, if_true, if_false, u32] <;>
    split_ifs <;> simp only [] <;> omega

theorem run_stats_sums (cfg : Config) (ops : List StatsOp) :
    ∀ (g : Globals) (a c : Nat),
      g.stats_overall.iso_recv_count + g.stats_overall.iso_lost_count = a →
      g.stats_current_conn.iso_recv_count + g.stats_current_conn.iso_lost_count = c →
      c ≤ a → a + recv_calls ops < 4294967296 →
      (run_stats cfg g ops).stats_overall.iso_recv_count
        + (run_stats cfg g ops).stats_overall.iso_lost_count = a + recv_calls ops ∧
      (run_stats cfg g ops).stats_current_conn.iso_recv_count
        + (run_stats cfg g ops).stats_current_conn.iso_lost_count
        = recv_calls_since_reset c ops := by
  induction ops with
  | nil => intro g a c ha hc _ _; simp [run_stats, recv_calls, recv_calls_since_reset, ha, hc]
  | cons op ops ih =>
    intro g a c ha hc hca hlt
    cases op with
    | recv flags =>
      simp only [recv_calls] at hlt
      have h1 := iso_recv_stats_overall_sum cfg g flags (by omega)
      have h2 := iso_recv_stats_current_sum cfg g flags (by omega)
      have := ih (iso_recv cfg g flags).1 (a + 1) (c + 1) (by omega) (by omega) (by omega)
        (by omega)
      simp only [run_stats, List.foldl_cons, StatsOp.apply, recv_calls, recv_calls_since_reset]
        at this ⊢
      constructor
      · omega
      · exact this.2
    | central_session =>
      simp only [recv_calls] at hlt
      have := ih (test_run_central_reset g) a 0 (by simpa [test_run_central_reset, reset_sems])
        (by simp [test_run_central_reset, reset_sems]) (by omega) hlt
      simpa only [run_stats, List.foldl_cons, StatsOp.apply, recv_calls, recv_calls_since_reset]
        using this
    | peripheral_session =>
      simp only [recv_calls] at hlt
      have := ih (test_run_peripheral_reset g) a 0
        (by simpa [test_run_peripheral_reset, reset_sems])
        (by simp [test_run_peripheral_reset, reset_sems]) (by omega) hlt
      simpa only [run_stats, List.foldl_cons, StatsOp.apply, recv_calls, recv_calls_since_reset]
        using this

/-- C1: starting from zeroed counters, after any history of fewer than 2^32 `iso_recv` calls
interleaved with session starts, the overall counters sum to the number of calls, the
current-connection counters sum to the number of calls since the last session start, and a
session start leaves `stats_overall` unchanged. -/
theorem c1_counters_account_for_every_call (cfg : Config) (g0 : Globals) (ops : List StatsOp)
    (hoverall : g0.stats_overall = ⟨0, 0⟩) (hcurrent : g0.stats_current_conn = ⟨0, 0⟩)
    (hcalls : recv_calls ops < 2 ^ 32) :
    (run_stats cfg g0 ops).stats_overall.iso_recv_count
        + (run_stats cfg g0 ops).stats_overall.iso_lost_count = recv_calls ops ∧
    (run_stats cfg g0 ops).stats_current_conn.iso_recv_count
        + (run_stats cfg g0 ops).stats_current_conn.iso_lost_count
        = recv_calls_since_reset 0 ops ∧
    (∀ g : Globals, (test_run_central_reset g).stats_overall = g.stats_overall ∧
      (test_run_peripheral_reset g).stats_overall = g.stats_overall) := by
  have h := run_stats_sums cfg ops g0 0 0 (by simp [hoverall]) (by simp [hcurrent])
    (le_refl 0) (by norm_num at hcalls; omega)
  refine ⟨by simpa using h.1, h.2, ?_⟩
  intro g
  simp [test_run_central_reset, test_run_peripheral_reset, reset_sems]

/-- Witness for C1: valid, lost, a peripheral session start, then one valid packet. -/
theorem c1_counters_account_for_every_call_witness :
    (run_stats zephyr_config (initial_globals zephyr_config)
        [.recv 1, .recv 0, .peripheral_session, .recv 1]).stats_overall = ⟨2, 1⟩ ∧
    (run_stats zephyr_config (initial_globals zephyr_config)
        [.recv 1, .recv 0, .peripheral_session, .recv 1]).stats_current_conn = ⟨1, 0⟩ ∧
    (run_stats zephyr_config (initial_globals zephyr_config)
        [.recv 1, .recv 0, .peripheral_session, .recv 1]).stats_overall.iso_recv_count
      + (run_stats zephyr_config (initial_globals zephyr_config)
        [.recv 1, .recv 0, .peripheral_session, .recv 1]).stats_overall.iso_lost_count = 3 :=
  ⟨by decide, by decide,
    (c1_counters_account_for_every_call zephyr_config (initial_globals zephyr_config)
      [.recv 1, .recv 0, .peripheral_session, .recv 1] rfl rfl (by decide)).1⟩

/-! ### The latest-1000 window -/

theorem getD_set_eq (arr : List Bool) (p i : Nat) (v : Bool) (hp : p < arr.length) :
    (arr.set p v).getD i false = if i = p then v else arr.getD i false := by
  by_cases h : i = p
  · subst h
    simp [List.getD_eq_getElem?_getD, hp]
  · have h2 : p ≠ i := fun e => h e.symm
    simp [List.getD_eq_getElem?_getD, List.getElem?_set_ne h2, h]

theorem sum_window_mod (N : Nat) (h : Nat → Nat) (a : Nat) :
    ∑ j in Finset.Ico a (a + N), h (j % N) = ∑ i in Finset.range N, h i := by
  induction a with
  | zero =>
    rw [Nat.zero_add, ← Finset.range_eq_Ico]
    apply Finset.sum_congr rfl
    intro j hj
    rw [Nat.mod_eq_of_lt (Finset.mem_range.mp hj)]
  | succ a ih =>
    have h1 := Finset.sum_Ico_succ_top (Nat.le_add_right a N) (fun j => h (j % N))
    have h2 := Finset.sum_eq_sum_Ico_succ_bot (Nat.lt_succ_of_le (Nat.le_add_right a N))
      (fun j => h (j % N))
    have h3 : (a + N) % N = a % N := Nat.add_mod_right a N
    have h4 : a + 1 + N = a + N + 1 := by omega
    simp only [h3, Nat.succ_eq_add_one] at h1 h2
    rw [h4]
    omega

theorem countP_eq_sum_range (p : Nat → Bool) (l : List Nat) :
    l.countP p = ∑ j in Finset.range l.length, if p (l.getD j 0) then 1 else 0 := by
  induction l using List.reverseRecOn with
  | nil => simp
  | append_singleton l x ih =>
    rw [List.countP_append, List.length_append, List.length_singleton, Finset.sum_range_succ, ih]
    congr 1
    · apply Finset.sum_congr rfl
      intro j hj
      have hj2 : j < l.length := Finset.mem_range.mp hj
      simp [List.getD_eq_getElem?_getD, List.getElem?_append_left hj2]
    · simp [List.getD_eq_getElem?_getD, List.countP_cons]

theorem countP_drop_eq_sum (p : Nat → Bool) (l : List Nat) (a : Nat) :
    (l.drop a).countP p = ∑ j in Finset.Ico a l.length, if p (l.getD j 0) then 1 else 0 := by
  rw [countP_eq_sum_range, Finset.sum_Ico_eq_sum_range, List.length_drop]
  apply Finset.sum_congr rfl
  intro j _
  simp [List.getD_eq_getElem?_getD, List.getElem?_drop]

theorem iso_recv_latest_arr (cfg : Config) (g : Globals) (flags : Nat) :
    (iso_recv cfg g flags).1.stats_latest_arr
      = g.stats_latest_arr.set g.stats_latest_arr_pos (flags_valid cfg flags) ∧
    (iso_recv cfg g flags).1.stats_latest_arr_pos
      = if g.stats_latest_arr_pos + 1 = STATS_LATEST_ARR_SIZE then 0
        else g.stats_latest_arr_pos + 1 := by
  unfold iso_recv flags_valid
  by_cases hv : flags = cfg.BT_ISO_FLAGS_VALID <;> simp only [hv, if_true, if_false] <;>
    split_ifs <;> simp_all

theorem iso_recv_report (cfg : Config) (g : Globals) (flags : Nat)
    (h : u32 ((iso_recv cfg g flags).1.stats_overall.iso_recv_count
      + (iso_recv cfg g flags).1.stats_overall.iso_lost_count) % 100 = 0) :
    ∃ r, (iso_recv cfg g flags).2 = some r ∧
      r.stats_latest = stats_latest_loop (iso_recv cfg g flags).1.stats_latest_arr
        (u32 ((iso_recv cfg g flags).1.stats_overall.iso_recv_count
          + (iso_recv cfg g flags).1.stats_overall.iso_lost_count))
        STATS_LATEST_ARR_SIZE 0 ⟨0, 0⟩ := by
  unfold iso_recv at h ⊢
  by_cases hv : flags = cfg.BT_ISO_FLAGS_VALID <;> simp only [hv, if_true, if_false] at h ⊢ <;>
    split_ifs at h ⊢ <;> simp_all

theorem stats_latest_loop_counts (arr : List Bool) (total_packets : Nat) :
    ∀ (remaining i : Nat) (st : iso_recv_stats), i ≤ total_packets →
      st.iso_recv_count + remaining < 4294967296 → st.iso_lost_count + remaining < 4294967296 →
      (stats_latest_loop arr total_packets remaining i st).iso_recv_count
        = st.iso_recv_count
          + ∑ j in Finset.Ico i (min total_packets (i + remaining)),
              (if arr.getD j false then 1 else 0) ∧
      (stats_latest_loop arr total_packets remaining i st).iso_lost_count
        = st.iso_lost_count
          + ∑ j in Finset.Ico i (min total_packets (i + remaining)),
              (if arr.getD j false then 0 else 1) := by
  intro remaining
  induction remaining with
  | zero =>
    intro i st hi _ _
    have : min total_packets (i + 0) = i := by omega
    simp [stats_latest_loop, this]
  | succ r ih =>
    intro i st hi h1 h2
    by_cases hit : i = total_packets
    · have : min total_packets (i + (r + 1)) = i := by omega
      simp [stats_latest_loop, hit, this]
    · have hlt : i < min total_packets (i + (r + 1)) := by omega
      have hmin : min total_packets (i + 1 + r) = min total_packets (i + (r + 1)) := by
        congr 1; omega
      rw [Finset.sum_eq_sum_Ico_succ_bot hlt, Finset.sum_eq_sum_Ico_succ_bot hlt]
      by_cases hb : arr.getD i false = true
      · have := ih (i + 1) { st with iso_recv_count := u32 (st.iso_recv_count + 1) }
          (by omega) (by simp only [u32]; omega) (by simpa using by omega)
        simp only [stats_latest_loop, hit, if_false, hb, if_true]
        rw [this.1, this.2, hmin]
        simp only [u32]
        constructor <;> omega
      · have := ih (i + 1) { st with iso_lost_count := u32 (st.iso_lost_count + 1) }
          (by omega) (by simpa using by omega) (by simp only [u32]; omega)
        have hb2 : arr.getD i false = false := by simpa using hb
        simp only [stats_latest_loop, hit, if_false, hb2, Bool.false_eq_true]
        rw [this.1, this.2, hmin]
        simp only [u32]
        constructor <;> omega

theorem iso_recv_calls_concat (cfg : Config) (g : Globals) (l : List Nat) (x : Nat) :
    iso_recv_calls cfg g (l ++ [x]) = iso_recv cfg (iso_recv_calls cfg g l).1 x := by
  simp [iso_recv_calls, List.foldl_append]

theorem iso_recv_calls_invariant (cfg : Config) (g0 : Globals)
    (hoverall : g0.stats_overall = ⟨0, 0⟩) (hlen : g0.stats_latest_arr.length = 1000)
    (hpos : g0.stats_latest_arr_pos = 0) (calls : List Nat) :
    calls.length < 4294967296 →
      (iso_recv_calls cfg g0 calls).1.stats_latest_arr.length = 1000 ∧
      (iso_recv_calls cfg g0 calls).1.stats_latest_arr_pos = calls.length % 1000 ∧
      (iso_recv_calls cfg g0 calls).1.stats_overall.iso_recv_count
        + (iso_recv_calls cfg g0 calls).1.stats_overall.iso_lost_count = calls.length ∧
      ∀ j, j < calls.length → calls.length ≤ j + 1000 →
        (iso_recv_calls cfg g0 calls).1.stats_latest_arr.getD (j % 1000) false
          = flags_valid cfg (calls.getD j 0) := by
  induction calls using List.reverseRecOn with
  | nil =>
    intro _
    simp [iso_recv_calls, hoverall, hlen, hpos]
  | append_singleton l x ih =>
    intro hlt
    rw [List.length_append, List.length_singleton] at hlt ⊢
    obtain ⟨ihlen, ihpos, ihsum, ihpt⟩ := ih (by omega)
    rw [iso_recv_calls_concat]
    have harr := iso_recv_latest_arr cfg (iso_recv_calls cfg g0 l).1 x
    have hsum := iso_recv_stats_overall_sum cfg (iso_recv_calls cfg g0 l).1 x (by omega)
    simp only [STATS_LATEST_ARR_SIZE] at harr
    refine ⟨?_, ?_, ?_, ?_⟩
    · rw [harr.1, List.length_set, ihlen]
    · rw [harr.2, ihpos]
      split_ifs <;> omega
    · omega
    · intro j hj hwin
      have hp : (iso_recv_calls cfg g0 l).1.stats_latest_arr_pos
          < (iso_recv_calls cfg g0 l).1.stats_latest_arr.length := by
        rw [ihlen, ihpos]; omega
      rw [harr.1, getD_set_eq _ _ _ _ hp, ihpos]
      by_cases hjl : j = l.length
      · subst hjl
        simp [List.getD_eq_getElem?_getD]
      · have hj2 : j < l.length := by omega
        have hne : ¬ (j % 1000 = l.length % 1000) := by omega
        rw [if_neg hne, ihpt j hj2 (by omega)]
        simp [List.getD_eq_getElem?_getD, List.getElem?_append_left hj2]

theorem latest_window_length (calls : List Nat) :
    (latest_window calls).length = min calls.length 1000 := by
  simp only [latest_window, STATS_LATEST_ARR_SIZE, List.length_drop]
  omega

/-- C2: after `n` calls of `iso_recv` from zeroed counters, with `0 < n < 2^32` and `n` a multiple
of 100, the last call logs a report whose latest-1000 statistics count the valid and the
non-valid packets among the most recent `min n 1000` calls; so `recv + lost = min n 1000`, which
is `n` when `n < 1000`. -/
theorem c2_latest_window_counts (cfg : Config) (g0 : Globals) (calls : List Nat)
    (hoverall : g0.stats_overall = ⟨0, 0⟩)
    (hlen : g0.stats_latest_arr.length = STATS_LATEST_ARR_SIZE)
    (hpos : g0.stats_latest_arr_pos = 0)
    (hn0 : 0 < calls.length) (hn : calls.length < 2 ^ 32) (h100 : calls.length % 100 = 0) :
    ∃ r : stats_report, (iso_recv_calls cfg g0 calls).2 = some r ∧
      r.stats_latest.iso_recv_count = (latest_window calls).countP (flags_valid cfg) ∧
      r.stats_latest.iso_lost_count
        = (latest_window calls).countP (fun flags => !flags_valid cfg flags) ∧
      r.stats_latest.iso_recv_count + r.stats_latest.iso_lost_count
        = min calls.length 1000 ∧
      (calls.length < 1000 →
        r.stats_latest.iso_recv_count + r.stats_latest.iso_lost_count = calls.length) := by
  have hn2 : calls.length < 4294967296 := by norm_num at hn; exact hn
  simp only [STATS_LATEST_ARR_SIZE] at hlen
  obtain ⟨hl, _, hsum, hpt⟩ := iso_recv_calls_invariant cfg g0 hoverall hlen hpos calls hn2
  -- the last call is the one that logs
  obtain ⟨l, x, rfl⟩ : ∃ l x, calls = l ++ [x] := by
    rcases List.eq_nil_or_concat calls with h | ⟨l, x, h⟩
    · rw [h] at hn0; simp at hn0
    · exact ⟨l, x, by simpa using h⟩
  rw [iso_recv_calls_concat] at hl hsum hpt ⊢
  set g := (iso_recv_calls cfg g0 l).1 with hg
  have htot : u32 ((iso_recv cfg g x).1.stats_overall.iso_recv_count
      + (iso_recv cfg g x).1.stats_overall.iso_lost_count) = (l ++ [x]).length := by
    rw [hsum]; exact Nat.mod_eq_of_lt hn2
  obtain ⟨r, hr, hlatest⟩ := iso_recv_report cfg g x (by rw [htot]; exact h100)
  rw [htot] at hlatest
  obtain ⟨hrecv, hlost⟩ := stats_latest_loop_counts (iso_recv cfg g x).1.stats_latest_arr
    (l ++ [x]).length STATS_LATEST_ARR_SIZE 0 ⟨0, 0⟩ (Nat.zero_le _)
    (by simp [STATS_LATEST_ARR_SIZE]) (by simp [STATS_LATEST_ARR_SIZE])
  rw [← hlatest] at hrecv hlost
  simp only [STATS_LATEST_ARR_SIZE, Nat.zero_add] at hrecv hlost
  -- both counters are sums over the window of the history
  have key : ∀ q : Bool → Nat,
      (∑ j in Finset.Ico 0 (min (l ++ [x]).length 1000),
          q ((iso_recv cfg g x).1.stats_latest_arr.getD j false))
        = ∑ j in Finset.Ico ((l ++ [x]).length - min (l ++ [x]).length 1000) (l ++ [x]).length,
            q (flags_valid cfg ((l ++ [x]).getD j 0)) := by
    intro q
    by_cases hsmall : (l ++ [x]).length ≤ 1000
    · rw [min_eq_left hsmall, Nat.sub_self]
      apply Finset.sum_congr rfl
      intro j hj
      have hj2 : j < (l ++ [x]).length := (Finset.mem_Ico.mp hj).2
      rw [← hpt j hj2 (by omega), Nat.mod_eq_of_lt (by omega)]
    · have hbig : 1000 ≤ (l ++ [x]).length := by omega
      rw [min_eq_right hbig]
      have hwin := sum_window_mod 1000
        (fun i => q ((iso_recv cfg g x).1.stats_latest_arr.getD i false))
        ((l ++ [x]).length - 1000)
      rw [Nat.sub_add_cancel hbig] at hwin
      rw [← Finset.range_eq_Ico, ← hwin]
      apply Finset.sum_congr rfl
      intro j hj
      have hj2 := Finset.mem_Ico.mp hj
      show q ((iso_recv cfg g x).1.stats_latest_arr.getD (j % 1000) false) = _
      rw [hpt j hj2.2 (by omega)]
  have hwcount : ∀ p : Nat → Bool, (latest_window (l ++ [x])).countP p
      = ∑ j in Finset.Ico ((l ++ [x]).length - min (l ++ [x]).length 1000) (l ++ [x]).length,
          if p ((l ++ [x]).getD j 0) then 1 else 0 := by
    intro p
    simp only [latest_window, STATS_LATEST_ARR_SIZE]
    exact countP_drop_eq_sum p _ _
  have e1 : r.stats_latest.iso_recv_count = (latest_window (l ++ [x])).countP (flags_valid cfg) := by
    rw [hrecv, hwcount]
    exact key (fun b => if b then 1 else 0)
  have e2 : r.stats_latest.iso_lost_count
      = (latest_window (l ++ [x])).countP (fun flags => !flags_valid cfg flags) := by
    rw [hlost, hwcount]
    have := key (fun b => if b then 0 else 1)
    rw [this]
    apply Finset.sum_congr rfl
    intro j _
    cases flags_valid cfg ((l ++ [x]).getD j 0) <;> simp
  have e3 : r.stats_latest.iso_recv_count + r.stats_latest.iso_lost_count
      = min (l ++ [x]).length 1000 := by
    rw [e1, e2, ← latest_window_length]
    have := List.length_eq_countP_add_countP (flags_valid cfg) (latest_window (l ++ [x]))
    rw [this]
    congr 1
    apply List.countP_congr
    intro a _
    simp
  refine ⟨r, hr, e1, e2, e3, ?_⟩
  intro hsmall
  rw [e3]
  exact min_eq_left (by omega)

/-- Witness for C2: sixty valid packets followed by forty lost ones. -/
theorem c2_latest_window_counts_witness :
    ∃ r : stats_report,
      (iso_recv_calls zephyr_config (initial_globals zephyr_config)
        (List.replicate 60 1 ++ List.replicate 40 0)).2 = some r ∧
      r.stats_latest.iso_recv_count = 60 ∧ r.stats_latest.iso_lost_count = 40 := by
  obtain ⟨r, hr, h1, h2, _, _⟩ := c2_latest_window_counts zephyr_config
    (initial_globals zephyr_config) (List.replicate 60 1 ++ List.replicate 40 0)
    rfl (List.length_replicate _ _) rfl (by simp) (by simp) (by simp)
  exact ⟨r, hr, by rw [h1]; rfl, by rw [h2]; rfl⟩

/-! ### Connection-duration average -/

theorem iso_disconnected_average_exact (n average duration : Nat)
    (h : duration + n * average < 18446744073709551616) :
    iso_disconnected_average (n + 1) average duration = some ((duration + n * average) / (n + 1)) := by
  have h1 : n * average < 18446744073709551616 := by omega
  simp [iso_disconnected_average, u64, Nat.mod_eq_of_lt h1, Nat.mod_eq_of_lt h]

theorem connection_averages_bounds (durations : List Nat) :
    ∀ n average S : Nat, n * average ≤ S → S ≤ n * average + n * (n - 1) / 2 →
      S + durations.sum < 18446744073709551616 →
      ∃ a, connection_averages n average durations = some a ∧
        (n + durations.length) * a ≤ S + durations.sum ∧
        S + durations.sum
          ≤ (n + durations.length) * a
            + (n + durations.length) * (n + durations.length - 1) / 2 := by
  induction durations with
  | nil =>
    intro n average S h1 h2 _
    exact ⟨average, rfl, by simpa using h1, by simpa using h2⟩
  | cons d ds ih =>
    intro n average S h1 h2 h3
    rw [List.sum_cons] at h3
    have hex := iso_disconnected_average_exact n average d (by omega)
    have hdiv := Nat.div_add_mod (d + n * average) (n + 1)
    have hmod : (d + n * average) % (n + 1) < n + 1 := Nat.mod_lt _ (by omega)
    have htri := Nat.triangle_succ n
    obtain ⟨a, ha, hlo, hhi⟩ := ih (n + 1) ((d + n * average) / (n + 1)) (S + d)
      (by omega) (by rw [htri]; omega) (by omega)
    refine ⟨a, ?_, ?_, ?_⟩
    · simp only [connection_averages, hex]
      exact ha
    · rw [List.length_cons, List.sum_cons]
      have e : n + (ds.length + 1) = n + 1 + ds.length := by omega
      rw [e]; omega
    · rw [List.length_cons, List.sum_cons]
      have e : n + (ds.length + 1) = n + 1 + ds.length := by omega
      rw [e]; omega

theorem connection_averages_constant (d : Nat) (durations : List Nat) :
    ∀ n average : Nat, (n = 0 ∨ average = d) → (∀ x ∈ durations, x = d) → durations ≠ [] →
      (n + durations.length) * d < 18446744073709551616 →
      connection_averages n average durations = some d := by
  induction durations with
  | nil => intro n average _ _ hne; exact absurd rfl hne
  | cons x ds ih =>
    intro n average hn hall _ hlt
    have hx : x = d := hall x (List.mem_cons_self _ _)
    subst hx
    rw [List.length_cons] at hlt
    have hstep : iso_disconnected_average (n + 1) average x = some x := by
      rcases hn with hn | hn
      · subst hn
        rw [iso_disconnected_average_exact 0 average x (by simp only [Nat.zero_mul, Nat.add_zero]; nlinarith)]
        simp
      · subst hn
        have e : average + n * average = (n + 1) * average := by ring
        rw [iso_disconnected_average_exact n average average (by rw [e]; nlinarith), e]
        simp
    simp only [connection_averages, hstep]
    cases ds with
    | nil => rfl
    | cons y ys =>
      apply ih (n + 1) x (Or.inr rfl) (fun z hz => hall z (List.mem_cons_of_mem _ hz))
        (by simp)
      have e : n + 1 + (y :: ys).length = n + ((y :: ys).length + 1) := by omega
      rw [e]; exact hlt

/-- C3 (as amended): with the `i`-th update made at `total_iso_conn_count = i` from an initial
average of 0, and the durations summing to less than 2^64, the average after `k >= 1` updates
is at most the arithmetic mean and falls short of it by less than `(k - 1) / 2`, that is
`k * average <= d_1 + ... + d_k <= k * average + k * (k - 1) / 2`; it is the mean exactly when all
durations are equal. -/
theorem c3_average_within_rounding_of_mean (durations : List Nat) (hne : durations ≠ [])
    (hsum : durations.sum < 2 ^ 64) :
    ∃ a, connection_averages 0 0 durations = some a ∧
      durations.length * a ≤ durations.sum ∧
      durations.sum ≤ durations.length * a + durations.length * (durations.length - 1) / 2 ∧
      a ≤ durations.sum / durations.length ∧
      (∀ d, (∀ x ∈ durations, x = d) → a = d ∧ durations.sum / durations.length = d) := by
  have hsum2 : 0 + durations.sum < 18446744073709551616 := by norm_num at hsum; omega
  obtain ⟨a, ha, hlo, hhi⟩ := connection_averages_bounds durations 0 0 0 (by simp) (by simp) hsum2
  simp only [Nat.zero_add] at hlo hhi
  have hpos : 0 < durations.length := List.length_pos.mpr hne
  refine ⟨a, ha, hlo, hhi, ?_, ?_⟩
  · rw [Nat.le_div_iff_mul_le hpos, Nat.mul_comm]; exact hlo
  · intro d hall
    have hs : durations.sum = durations.length * d := by
      rw [List.eq_replicate_of_mem hall]; simp
    have hc := connection_averages_constant d durations 0 0 (Or.inl rfl) hall hne
      (by rw [Nat.zero_add, ← hs]; omega)
    rw [hc] at ha
    refine ⟨(Option.some.inj ha).symm, ?_⟩
    rw [hs, Nat.mul_div_cancel_left d hpos]

/-- Witness for C3: three connections lasting 3, 5 and 9 milliseconds. -/
theorem c3_average_within_rounding_of_mean_witness :
    ∃ a, connection_averages 0 0 [3, 5, 9] = some a ∧ 3 * a ≤ 17 ∧ 17 ≤ 3 * a + 3 := by
  obtain ⟨a, ha, h1, h2, _, _⟩ :=
    c3_average_within_rounding_of_mean [3, 5, 9] (by simp) (by norm_num)
  exact ⟨a, ha, by simpa using h1, by simpa using h2⟩

/-- Counterexample to C3 as stated: after durations 0, 1 and 2 the average is 0, while their
arithmetic mean is 1. -/
theorem c3_average_is_not_the_mean :
    connection_averages 0 0 [0, 1, 2] = some 0 ∧
    connection_averages 0 0 [0, 1, 2] ≠ some (([0, 1, 2] : List Nat).sum / [0, 1, 2].length) := by
  decide

/-! ### Validation of the QoS prompts -/

theorem to_int_of_lt (n : Nat) (h : n < 2147483648) : to_int n = (n : Int) := by
  have h1 : n % 4294967296 = n := Nat.mod_eq_of_lt (by omega)
  simp [to_int, h1, h]

/-- The bounds that `parse_args` enforces on five parsed values. -/
theorem parse_args_some (cfg : Config) (qos : bt_iso_chan_io_qos)
    (rtn interval latency phy sdu : Nat) (hEINVAL : 0 < cfg.EINVAL)
    (h1M : cfg.BT_GAP_LE_PHY_1M < 2 ^ 31) (h2M : cfg.BT_GAP_LE_PHY_2M < 2 ^ 31)
    (hCODED : cfg.BT_GAP_LE_PHY_CODED < 2 ^ 31) :
    parse_args cfg qos ⟨some rtn, some interval, some latency, some phy, some sdu⟩
      = if rtn ≤ 16 ∧ 256 ≤ interval ∧ interval ≤ 1048575 ∧ latency ≤ 4000 ∧
            (phy = cfg.BT_GAP_LE_PHY_1M ∨ phy = cfg.BT_GAP_LE_PHY_2M
              ∨ phy = cfg.BT_GAP_LE_PHY_CODED) ∧ 4 ≤ sdu ∧ sdu ≤ 4095
        then (0, { rtn := rtn, interval := interval, latency := latency, phy := phy, sdu := sdu })
        else (-(cfg.EINVAL : Int), qos) := by
  have hneg : -(cfg.EINVAL : Int) < 0 := by omega
  norm_num at h1M h2M hCODED
  by_cases hr : rtn ≤ 16
  swap
  · rw [if_neg (fun h => hr h.1)]
    simp [parse_args, parse_rtn_arg, hneg, show rtn > 16 by omega]
  by_cases hi : 256 ≤ interval ∧ interval ≤ 1048575
  swap
  · rw [if_neg (fun h => hi ⟨h.2.1, h.2.2.1⟩)]
    have hi2 : interval < 256 ∨ interval > 1048575 := by omega
    simp [parse_args, parse_rtn_arg, parse_interval_arg, show ¬ (rtn > 16) by omega,
      to_int_of_lt rtn (by omega), hi2, hneg]
  by_cases hl : latency ≤ 4000
  swap
  · rw [if_neg (fun h => hl h.2.2.2.1)]
    simp [parse_args, parse_rtn_arg, parse_interval_arg, parse_latency_arg,
      show ¬ (rtn > 16) by omega, to_int_of_lt rtn (by omega),
      show ¬ (interval < 256 ∨ interval > 1048575) by omega, to_int_of_lt interval (by omega),
      show latency > 4000 by omega, hneg]
  by_cases hp : phy = cfg.BT_GAP_LE_PHY_1M ∨ phy = cfg.BT_GAP_LE_PHY_2M
      ∨ phy = cfg.BT_GAP_LE_PHY_CODED
  swap
  · rw [if_neg (fun h => hp h.2.2.2.2.1)]
    have hp2 : phy ≠ cfg.BT_GAP_LE_PHY_1M ∧ phy ≠ cfg.BT_GAP_LE_PHY_2M
        ∧ phy ≠ cfg.BT_GAP_LE_PHY_CODED := by
      refine ⟨fun h => hp (Or.inl h), fun h => hp (Or.inr (Or.inl h)),
        fun h => hp (Or.inr (Or.inr h))⟩
    simp [parse_args, parse_rtn_arg, parse_interval_arg, parse_latency_arg, parse_phy_arg,
      show ¬ (rtn > 16) by omega, to_int_of_lt rtn (by omega),
      show ¬ (interval < 256 ∨ interval > 1048575) by omega, to_int_of_lt interval (by omega),
      show ¬ (latency > 4000) by omega, to_int_of_lt latency (by omega), hp2, hneg]
  have hphy : phy < 2147483648 := by rcases hp with h | h | h <;> omega
  have hp3 : ¬ (phy ≠ cfg.BT_GAP_LE_PHY_1M ∧ phy ≠ cfg.BT_GAP_LE_PHY_2M
      ∧ phy ≠ cfg.BT_GAP_LE_PHY_CODED) := by
    rintro ⟨a, b, c⟩
    rcases hp with h | h | h
    · exact a h
    · exact b h
    · exact c h
  by_cases hs : 4 ≤ sdu ∧ sdu ≤ 4095
  swap
  · rw [if_neg (fun h => hs h.2.2.2.2.2)]
    have hs2 : sdu > 4095 ∨ sdu < 4 := by omega
    simp only [parse_args, parse_rtn_arg, parse_interval_arg, parse_latency_arg, parse_phy_arg,
      parse_sdu_arg, if_neg (show ¬ (rtn > 16) by omega), to_int_of_lt rtn (by omega),
      if_neg (show ¬ (interval < 256 ∨ interval > 1048575) by omega),
      to_int_of_lt interval (by omega),
      if_neg (show ¬ (latency > 4000) by omega), to_int_of_lt latency (by omega), if_neg hp3,
      to_int_of_lt phy hphy, if_pos hs2, if_pos hneg,
      if_neg (show ¬ ((rtn : Int) < 0) by omega), if_neg (show ¬ ((interval : Int) < 0) by omega),
      if_neg (show ¬ ((latency : Int) < 0) by omega), if_neg (show ¬ ((phy : Int) < 0) by omega)]
  · rw [if_pos ⟨hr, hi.1, hi.2, hl, hp, hs.1, hs.2⟩]
    simp only [parse_args, parse_rtn_arg, parse_interval_arg, parse_latency_arg, parse_phy_arg,
      parse_sdu_arg, if_neg (show ¬ (rtn > 16) by omega), to_int_of_lt rtn (by omega),
      if_neg (show ¬ (interval < 256 ∨ interval > 1048575) by omega),
      to_int_of_lt interval (by omega),
      if_neg (show ¬ (latency > 4000) by omega), to_int_of_lt latency (by omega), if_neg hp3,
      to_int_of_lt phy hphy, if_neg (show ¬ (sdu > 4095 ∨ sdu < 4) by omega),
      to_int_of_lt sdu (by omega),
      if_neg (show ¬ ((rtn : Int) < 0) by omega), if_neg (show ¬ ((interval : Int) < 0) by omega),
      if_neg (show ¬ ((latency : Int) < 0) by omega), if_neg (show ¬ ((phy : Int) < 0) by omega),
      if_neg (show ¬ ((sdu : Int) < 0) by omega), Int.toNat_ofNat]

/-- C4: for five parsed values, `parse_args` returns 0 and stores exactly these values if and
only if `rtn <= 16`, `256 <= interval <= 1048575`, `latency <= 4000`, `phy` is one of the three
PHY constants and `4 <= sdu <= 4095`; otherwise it returns `-EINVAL`. Interval 255 and SDU 3 are
rejected, interval 256 and SDU 4 accepted. (`EINVAL` is positive and the PHY constants fit
an `int`.) -/
theorem c4_parse_args_accepts_exactly_the_bounds (cfg : Config) (qos : bt_iso_chan_io_qos)
    (rtn interval latency phy sdu : Nat) (hEINVAL : 0 < cfg.EINVAL)
    (h1M : cfg.BT_GAP_LE_PHY_1M < 2 ^ 31) (h2M : cfg.BT_GAP_LE_PHY_2M < 2 ^ 31)
    (hCODED : cfg.BT_GAP_LE_PHY_CODED < 2 ^ 31) :
    (parse_args cfg qos ⟨some rtn, some interval, some latency, some phy, some sdu⟩
        = (0, { rtn := rtn, interval := interval, latency := latency, phy := phy, sdu := sdu })
      ↔ rtn ≤ 16 ∧ 256 ≤ interval ∧ interval ≤ 1048575 ∧ latency ≤ 4000 ∧
          (phy = cfg.BT_GAP_LE_PHY_1M ∨ phy = cfg.BT_GAP_LE_PHY_2M
            ∨ phy = cfg.BT_GAP_LE_PHY_CODED) ∧ 4 ≤ sdu ∧ sdu ≤ 4095) ∧
    (¬ (rtn ≤ 16 ∧ 256 ≤ interval ∧ interval ≤ 1048575 ∧ latency ≤ 4000 ∧
          (phy = cfg.BT_GAP_LE_PHY_1M ∨ phy = cfg.BT_GAP_LE_PHY_2M
            ∨ phy = cfg.BT_GAP_LE_PHY_CODED) ∧ 4 ≤ sdu ∧ sdu ≤ 4095) →
      (parse_args cfg qos ⟨some rtn, some interval, some latency, some phy, some sdu⟩).1
        = -(cfg.EINVAL : Int)) ∧
    (parse_args cfg qos ⟨some rtn, some 255, some latency, some phy, some sdu⟩).1
      = -(cfg.EINVAL : Int) ∧
    (parse_args cfg qos ⟨some rtn, some interval, some latency, some phy, some 3⟩).1
      = -(cfg.EINVAL : Int) ∧
    (rtn ≤ 16 ∧ latency ≤ 4000 ∧
        (phy = cfg.BT_GAP_LE_PHY_1M ∨ phy = cfg.BT_GAP_LE_PHY_2M
          ∨ phy = cfg.BT_GAP_LE_PHY_CODED) →
      parse_args cfg qos ⟨some rtn, some 256, some latency, some phy, some 4⟩
        = (0, { rtn := rtn, interval := 256, latency := latency, phy := phy, sdu := 4 })) := by
  have hne : -(cfg.EINVAL : Int) ≠ 0 := by omega
  refine ⟨⟨?_, ?_⟩, ?_, ?_, ?_, ?_⟩
  · intro h
    by_contra hv
    rw [parse_args_some cfg qos rtn interval latency phy sdu hEINVAL h1M h2M hCODED,
      if_neg hv] at h
    exact hne (congrArg Prod.fst h)
  · intro hv
    rw [parse_args_some cfg qos rtn interval latency phy sdu hEINVAL h1M h2M hCODED, if_pos hv]
  · intro hv
    rw [parse_args_some cfg qos rtn interval latency phy sdu hEINVAL h1M h2M hCODED, if_neg hv]
  · rw [parse_args_some cfg qos rtn 255 latency phy sdu hEINVAL h1M h2M hCODED,
      if_neg (by omega)]
  · rw [parse_args_some cfg qos rtn interval latency phy 3 hEINVAL h1M h2M hCODED,
      if_neg (by omega)]
  · rintro ⟨hr, hl, hp⟩
    rw [parse_args_some cfg qos rtn 256 latency phy 4 hEINVAL h1M h2M hCODED,
      if_pos ⟨hr, by omega, by omega, hl, hp, by omega, by omega⟩]

/-- Witness for C4: the values 2, 7500, 10, the 2M PHY and 100 are accepted and stored. -/
theorem c4_parse_args_accepts_exactly_the_bounds_witness :
    parse_args zephyr_config (initial_globals zephyr_config).iso_tx_qos
        ⟨some 2, some 7500, some 10, some 2, some 100⟩
      = (0, { rtn := 2, interval := 7500, latency := 10, phy := 2, sdu := 100 }) :=
  (c4_parse_args_accepts_exactly_the_bounds zephyr_config
    (initial_globals zephyr_config).iso_tx_qos 2 7500 10 2 100 (by decide) (by decide)
    (by decide) (by decide)).1.2 (by decide)

/-! ### Enabled directions and the CIS count -/

/-- C5 (the code departs from it): from the initial configuration, a first call that disables RX
returns 0, and a second call that disables TX returns 0 as well and leaves both `iso_qos.tx` and
`iso_qos.rx` `NULL`. -/
theorem c5_both_directions_disabled :
    (change_central_settings zephyr_config (initial_globals zephyr_config)
      answers_disable_rx).1 = 0 ∧
    (change_central_settings zephyr_config
      (change_central_settings zephyr_config (initial_globals zephyr_config)
        answers_disable_rx).2 answers_disable_tx).1 = 0 ∧
    (change_central_settings zephyr_config
      (change_central_settings zephyr_config (initial_globals zephyr_config)
        answers_disable_rx).2 answers_disable_tx).2.iso_qos = { tx := false, rx := false } := by
  decide

theorem parse_cis_count_arg_some (cfg : Config) (c : Nat)
    (hmax : cfg.CONFIG_BT_ISO_MAX_CHAN < 2 ^ 31) :
    parse_cis_count_arg cfg (some c)
      = if c ≤ cfg.CONFIG_BT_ISO_MAX_CHAN then (c : Int) else -(cfg.EINVAL : Int) := by
  norm_num at hmax
  by_cases h : c ≤ cfg.CONFIG_BT_ISO_MAX_CHAN
  · rw [if_pos h]
    simp only [parse_cis_count_arg, if_neg (show ¬ (c > cfg.CONFIG_BT_ISO_MAX_CHAN) by omega),
      to_int_of_lt c (by omega)]
  · rw [if_neg h]
    simp only [parse_cis_count_arg, if_pos (show c > cfg.CONFIG_BT_ISO_MAX_CHAN by omega)]

theorem change_cis_count_bound (cfg : Config) (g : Globals) (a : central_answers)
    (hmax : cfg.CONFIG_BT_ISO_MAX_CHAN < 2 ^ 31) :
    (change_cis_count cfg g a).2.cis_create_count = g.cis_create_count ∨
    (change_cis_count cfg g a).2.cis_create_count ≤ cfg.CONFIG_BT_ISO_MAX_CHAN := by
  unfold change_cis_count
  by_cases h1 : is_yes a.change_cis_count = true
  swap
  · simp [h1]
  simp only [h1, if_true]
  by_cases h2 : parse_cis_count_arg cfg a.cis_count < 0
  · simp [h2]
  simp only [h2, if_false]
  right
  cases hc : a.cis_count with
  | none =>
    simp only [parse_cis_count_arg, DEFAULT_CIS_COUNT, u8, Int.toNat_ofNat]
    exact Nat.mod_le _ _
  | some c =>
    rw [hc, parse_cis_count_arg_some cfg c hmax] at h2
    rw [parse_cis_count_arg_some cfg c hmax]
    by_cases hle : c ≤ cfg.CONFIG_BT_ISO_MAX_CHAN
    · simp only [if_pos hle, Int.toNat_ofNat, u8]
      exact le_trans (Nat.mod_le _ _) hle
    · rw [if_neg hle] at h2
      simp only [if_neg hle, u8]
      have : (-(cfg.EINVAL : Int)).toNat = 0 := by omega
      rw [this]
      simp

theorem change_rx_settings_bound (cfg : Config) (g : Globals) (a : central_answers)
    (hmax : cfg.CONFIG_BT_ISO_MAX_CHAN < 2 ^ 31) :
    (change_rx_settings cfg g a).2.cis_create_count = g.cis_create_count ∨
    (change_rx_settings cfg g a).2.cis_create_count ≤ cfg.CONFIG_BT_ISO_MAX_CHAN := by
  unfold change_rx_settings
  dsimp only
  split_ifs
  all_goals first
    | exact Or.inl rfl
    | exact change_cis_count_bound cfg _ a hmax

theorem change_central_settings_bound (cfg : Config) (g : Globals) (a : central_answers)
    (hmax : cfg.CONFIG_BT_ISO_MAX_CHAN < 2 ^ 31) :
    (change_central_settings cfg g a).2.cis_create_count = g.cis_create_count ∨
    (change_central_settings cfg g a).2.cis_create_count ≤ cfg.CONFIG_BT_ISO_MAX_CHAN := by
  unfold change_central_settings
  dsimp only
  split_ifs
  all_goals first
    | exact Or.inl rfl
    | exact change_rx_settings_bound cfg _ a hmax

/-- C6 (as amended): a parsed stream count `c` is accepted (returned) by `parse_cis_count_arg` if
and only if `c <= CONFIG_BT_ISO_MAX_CHAN`, zero included, and any larger count gives `-EINVAL`; so
`change_central_settings` either leaves `cis_create_count` as it was or sets it to a value of at
most `CONFIG_BT_ISO_MAX_CHAN`. (`EINVAL` is positive and `CONFIG_BT_ISO_MAX_CHAN` fits an
`int`.) -/
theorem c6_cis_count_at_most_max (cfg : Config) (c : Nat) (g : Globals) (a : central_answers)
    (hEINVAL : 0 < cfg.EINVAL) (hmax : cfg.CONFIG_BT_ISO_MAX_CHAN < 2 ^ 31) :
    (parse_cis_count_arg cfg (some c) = (c : Int) ↔ c ≤ cfg.CONFIG_BT_ISO_MAX_CHAN) ∧
    (cfg.CONFIG_BT_ISO_MAX_CHAN < c → parse_cis_count_arg cfg (some c) = -(cfg.EINVAL : Int)) ∧
    ((change_central_settings cfg g a).2.cis_create_count = g.cis_create_count ∨
      (change_central_settings cfg g a).2.cis_create_count ≤ cfg.CONFIG_BT_ISO_MAX_CHAN) := by
  refine ⟨⟨?_, ?_⟩, ?_, change_central_settings_bound cfg g a hmax⟩
  · intro h
    by_contra hle
    rw [parse_cis_count_arg_some cfg c hmax, if_neg hle] at h
    omega
  · intro hle
    rw [parse_cis_count_arg_some cfg c hmax, if_pos hle]
  · intro hlt
    rw [parse_cis_count_arg_some cfg c hmax, if_neg (by omega)]

/-- Witness for C6: with two channels configured, the count 2 is accepted and stored. -/
theorem c6_cis_count_at_most_max_witness :
    parse_cis_count_arg zephyr_config (some 2) = 2 ∧
    (change_central_settings zephyr_config (initial_globals zephyr_config)
      (answers_cis_count (some 1))).2.cis_create_count = 1 :=
  ⟨(c6_cis_count_at_most_max zephyr_config 2 (initial_globals zephyr_config)
      (answers_cis_count (some 1)) (by decide) (by decide)).1.2 (by decide), by decide⟩

/-- Counterexample to C6 as stated: the count 0 is accepted, not answered with `-EINVAL`, and
`change_central_settings` returns 0 having set `cis_create_count` to 0. -/
theorem c6_zero_streams_accepted :
    parse_cis_count_arg zephyr_config (some 0) = 0 ∧
    parse_cis_count_arg zephyr_config (some 0) ≠ -(zephyr_config.EINVAL : Int) ∧
    ¬ (parse_cis_count_arg zephyr_config (some 0) = 0
        ↔ 1 ≤ 0 ∧ 0 ≤ zephyr_config.CONFIG_BT_ISO_MAX_CHAN) ∧
    (change_central_settings zephyr_config (initial_globals zephyr_config)
      (answers_cis_count (some 0))).1 = 0 ∧
    (change_central_settings zephyr_config (initial_globals zephyr_config)
      (answers_cis_count (some 0))).2.cis_create_count = 0 := by
  decide

/-! ### Session orchestration -/

theorem iso_connected_events_cons (d : Nat) (l : label) (ls : List label) :
    iso_connected_events d (l :: ls) = iso_connected_events (iso_connected_events d [l]) ls := by
  cases l with
  | callback c => cases c <;> rfl
  | _ => rfl

theorem change_cis_count_sem (cfg : Config) (g : Globals) (a : central_answers) :
    (change_cis_count cfg g a).2.sem_iso_connected = g.sem_iso_connected := by
  unfold change_cis_count
  dsimp only
  split_ifs <;> rfl

theorem change_rx_settings_sem (cfg : Config) (g : Globals) (a : central_answers) :
    (change_rx_settings cfg g a).2.sem_iso_connected = g.sem_iso_connected := by
  unfold change_rx_settings
  dsimp only
  split_ifs
  all_goals first
    | rfl
    | exact change_cis_count_sem cfg _ a

theorem change_central_settings_sem (cfg : Config) (g : Globals) (a : central_answers) :
    (change_central_settings cfg g a).2.sem_iso_connected = g.sem_iso_connected := by
  unfold change_central_settings
  dsimp only
  split_ifs
  all_goals first
    | rfl
    | exact change_rx_settings_sem cfg _ a

theorem test_run_central_start_sem (cfg : Config) (g : Globals) (last : Option Int) (c : Char)
    (a : central_answers) (r : stack_results) :
    (test_run_central_start cfg g last c a r).g.sem_iso_connected.count = 0 ∧
    ((test_run_central_start cfg g last c a r).pc = .role_select ∨
      (test_run_central_start cfg g last c a r).pc = .central_wait_adv) := by
  unfold test_run_central_start
  dsimp only
  have h0 : (test_run_central_reset g).sem_iso_connected.count = 0 := rfl
  have h1 := change_central_settings_sem cfg (test_run_central_reset g) a
  split_ifs <;> simp [test_return, h0, h1]

theorem iso_recv_sem_iso_connected (cfg : Config) (g : Globals) (flags : Nat) :
    (iso_recv cfg g flags).1.sem_iso_connected = g.sem_iso_connected := by
  unfold iso_recv
  dsimp only
  split_ifs <;> rfl

theorem deliver_sem_iso_connected (cfg : Config) (g g1 : Globals) (c : callback) (d : Nat)
    (h : deliver cfg g c = .ok g1) :
    g1.sem_iso_connected.count + d
      ≤ g.sem_iso_connected.count + iso_connected_events d [.callback c] := by
  cases c with
  | connected err =>
    simp only [deliver, Except.ok.injEq] at h
    subst h
    simp only [connected, iso_connected_events]
    split_ifs <;> simp
  | disconnected =>
    simp only [deliver, Except.ok.injEq] at h
    subst h
    simp [disconnected, iso_connected_events]
  | scan_recv name_matches =>
    simp only [deliver, Except.ok.injEq] at h
    subst h
    simp only [scan_recv, iso_connected_events]
    split_ifs <;> simp
  | iso_accept chan_disconnected =>
    simp only [deliver, Except.ok.injEq] at h
    subst h
    simp only [iso_accept, iso_connected_events]
    split <;> simp
  | iso_connected now =>
    simp only [deliver, Except.ok.injEq] at h
    subst h
    simp only [iso_connected, k_sem_give, iso_connected_events]
    split_ifs <;> first | omega | (simp only []; omega)
  | iso_disconnected now =>
    simp only [deliver, iso_disconnected] at h
    split at h
    · exact absurd h (by simp)
    · simp only [Except.ok.injEq] at h
      subst h
      simp [iso_connected_events]
  | iso_recv flags =>
    simp only [deliver, Except.ok.injEq] at h
    subst h
    simp [iso_recv_sem_iso_connected, iso_connected_events]

theorem step_connected_accounted (cfg : Config) (s s1 : system) (l : label) (d : Nat)
    (hinv : connected_accounted s d) (h : step cfg s l = some (.ok s1)) :
    connected_accounted s1 (iso_connected_events d [l]) := by
  obtain ⟨g, pc, tc⟩ := s
  cases l with
  | select_role role c a r =>
    cases pc <;> simp only [step, reduceCtorEq] at h
    split_ifs at h
    · have hs := test_run_central_start_sem cfg { g with role := role } tc c a r
      simp only [Option.some.injEq, Except.ok.injEq] at h
      subst h
      simp only [connected_accounted, iso_connected_events]
      rcases hs.2 with hp | hp <;> simp [hp, hs.1]
    · simp only [Option.some.injEq, Except.ok.injEq] at h
      subst h
      simp only [connected_accounted, test_run_peripheral_start, test_return]
      split_ifs <;> simp
  | proceed r =>
    simp only [step, Option.map_eq_some', Except.ok.injEq, exists_eq_right] at h
    cases pc <;>
      simp only [proceed, k_sem_take, Option.map_eq_some', reduceCtorEq] at h
    all_goals
      obtain ⟨sem, hsem, rfl⟩ := h
      try simp only [connected_accounted] at hinv
      split_ifs at hsem
      simp only [Option.some.injEq] at hsem
      subst hsem
      simp only [connected_accounted, iso_connected_events, test_return,
        central_iso_connected_loop, central_iso_disconnected_loop,
        peripheral_iso_connected_loop, peripheral_iso_disconnected_loop,
        test_run_peripheral_after_accept]
      try split_ifs
      all_goals first
        | trivial
        | omega
        | (simp only []; omega)
  | timeout r =>
    simp only [step, Option.map_eq_some', Except.ok.injEq, exists_eq_right] at h
    cases pc <;> simp only [timeout, reduceCtorEq] at h
    split at h
    · exact absurd h (by simp)
    · simp only [Option.some.injEq] at h
      subst h
      simp only [connected_accounted, test_run_peripheral_after_accept, test_return,
        peripheral_iso_connected_loop]
      split_ifs <;> trivial
  | callback c =>
    simp only [step] at h
    split at h
    · rename_i g1 hg
      simp only [Option.some.injEq, Except.ok.injEq] at h
      subst h
      have hc := deliver_sem_iso_connected cfg g g1 c d hg
      simp only [connected_accounted] at hinv ⊢
      cases pc <;> first | trivial | (simp only [] at hinv ⊢; omega)
    · exact absurd h (by simp)

theorem run_connected_accounted (cfg : Config) (tr : List label) :
    ∀ (s s1 : system) (d : Nat), connected_accounted s d → run cfg s tr = some (.ok s1) →
      connected_accounted s1 (iso_connected_events d tr) := by
  induction tr with
  | nil =>
    intro s s1 d hinv h
    simp only [run, Option.some.injEq, Except.ok.injEq] at h
    subst h
    exact hinv
  | cons l ls ih =>
    intro s s1 d hinv h
    simp only [run] at h
    split at h
    · exact absurd h (by simp)
    · exact absurd h (by simp)
    · rename_i s2 hs2
      rw [iso_connected_events_cons]
      exact ih s2 s1 _ (step_connected_accounted cfg s s2 l d hinv hs2) h

theorem enter_central_active (cfg : Config) (s s1 : system) (l : label) (d : Nat)
    (hinv : connected_accounted s d) (h : step cfg s l = some (.ok s1))
    (hbefore : s.pc ≠ .central_active) (hafter : s1.pc = .central_active) :
    s1.g.cis_create_count ≤ d ∧ s1.g.iso_send_work_scheduled = true := by
  obtain ⟨g, pc, tc⟩ := s
  cases l with
  | select_role role c a r =>
    cases pc <;> simp only [step, reduceCtorEq] at h
    split_ifs at h
    · have hs := test_run_central_start_sem cfg { g with role := role } tc c a r
      simp only [Option.some.injEq, Except.ok.injEq] at h
      subst h
      rcases hs.2 with hp | hp <;> rw [hp] at hafter <;> exact absurd hafter (by simp)
    · simp only [Option.some.injEq, Except.ok.injEq] at h
      subst h
      simp only [test_run_peripheral_start, test_return] at hafter
      split_ifs at hafter
  | proceed r =>
    simp only [step, Option.map_eq_some', Except.ok.injEq, exists_eq_right] at h
    cases pc <;>
      simp only [proceed, k_sem_take, Option.map_eq_some', reduceCtorEq] at h
    all_goals
      obtain ⟨sem, hsem, rfl⟩ := h
      try simp only [connected_accounted] at hinv
      split_ifs at hsem
      simp only [Option.some.injEq] at hsem
      subst hsem
      simp only [test_return, central_iso_connected_loop, central_iso_disconnected_loop,
        peripheral_iso_connected_loop, peripheral_iso_disconnected_loop,
        test_run_peripheral_after_accept] at hafter ⊢
      try split_ifs at hafter ⊢
      all_goals first
        | (refine ⟨?_, rfl⟩; first | omega | (simp only []; omega))
        | exact absurd rfl hbefore
        | simp at hafter
  | timeout r =>
    simp only [step, Option.map_eq_some', Except.ok.injEq, exists_eq_right] at h
    cases pc <;> simp only [timeout, reduceCtorEq] at h
    split at h
    · exact absurd h (by simp)
    · simp only [Option.some.injEq] at h
      subst h
      simp only [test_run_peripheral_after_accept, test_return,
        peripheral_iso_connected_loop] at hafter
      split_ifs at hafter
  | callback c =>
    simp only [step] at h
    split at h
    · simp only [Option.some.injEq, Except.ok.injEq] at h
      subst h
      exact absurd hafter hbefore
    · exact absurd h (by simp)

/-- C9: in any run that starts at the role prompt, a step that takes `test_run_central` into its
active phase (the transmit work is scheduled) is taken only when at least `cis_create_count`
`iso_connected` callbacks have been delivered since the session started, whatever the
interleaving of callbacks and thread steps. -/
theorem c9_active_only_after_all_streams_connected (cfg : Config) (s0 s s1 : system)
    (tr : List label) (l : label) (hstart : s0.pc = .role_select)
    (hrun : run cfg s0 tr = some (.ok s)) (hstep : step cfg s l = some (.ok s1))
    (hbefore : s.pc ≠ .central_active) (hafter : s1.pc = .central_active) :
    s1.g.cis_create_count ≤ iso_connected_events 0 tr ∧
    s1.g.iso_send_work_scheduled = true := by
  have h0 : connected_accounted s0 0 := by
    simp only [connected_accounted, hstart]
  have hinv := run_connected_accounted cfg tr s0 s 0 h0 hrun
  exact enter_central_active cfg s s1 l _ hinv hstep hbefore hafter

/-- Witness for C9: two streams, whose connected events arrive before the orchestrator takes the
semaphore for the second time; the last step enters the active phase. -/
theorem c9_active_only_after_all_streams_connected_witness :
    ∃ s s1 : system,
      run zephyr_config (initial_system zephyr_config)
        [.select_role ROLE_CENTRAL 'n' answers_keep stack_ok, .callback (.scan_recv true),
          .proceed stack_ok, .callback (.connected 0), .proceed stack_ok,
          .callback (.iso_connected 3), .callback (.iso_connected 4), .proceed stack_ok]
        = some (.ok s) ∧
      step zephyr_config s (.proceed stack_ok) = some (.ok s1) ∧
      s.pc = .central_wait_iso_connected 1 ∧ s1.pc = .central_active ∧
      s1.g.cis_create_count = 2 ∧
      s1.g.cis_create_count ≤ iso_connected_events 0
        [.select_role ROLE_CENTRAL 'n' answers_keep stack_ok, .callback (.scan_recv true),
          .proceed stack_ok, .callback (.connected 0), .proceed stack_ok,
          .callback (.iso_connected 3), .callback (.iso_connected 4), .proceed stack_ok] :=
  ⟨_, _, rfl, rfl, rfl, rfl, rfl,
    (c9_active_only_after_all_streams_connected zephyr_config (initial_system zephyr_config) _ _
      [.select_role ROLE_CENTRAL 'n' answers_keep stack_ok, .callback (.scan_recv true),
        .proceed stack_ok, .callback (.connected 0), .proceed stack_ok,
        .callback (.iso_connected 3), .callback (.iso_connected 4), .proceed stack_ok]
      (.proceed stack_ok) rfl rfl rfl (by decide) rfl).1⟩

/-- C7 (the code departs from it): a responder session in which the link comes up and no stream
request arrives. The two-second wait times out, `peripheral_cleanup` succeeds, and
`test_run_peripheral` returns 0 to `main`, the value of a successful run. -/
theorem c7_timeout_returns_success :
    ∃ s : system,
      run zephyr_config (initial_system zephyr_config)
        [.select_role ROLE_PERIPHERAL 'n' answers_keep stack_ok, .callback (.connected 0),
          .proceed stack_ok, .timeout stack_ok] = some (.ok s) ∧
      s.pc = .role_select ∧ s.test_complete = some 0 :=
  ⟨_, rfl, rfl, rfl⟩

/-- C8 (the code departs from it): `peripheral_cleanup` runs with two accepted streams of which
stream 1 has reported its disconnection (one unit in `sem_iso_disconnected`) and every request
succeeding. It skips stream 0, which is still connected, and calls `bt_iso_chan_disconnect`
for stream 1 only. -/
theorem c8_cleanup_skips_by_count :
    (peripheral_cleanup zephyr_config
      { initial_globals zephyr_config with
        cis_create_count := 2, sem_iso_disconnected := ⟨1, 2⟩ } stack_ok).1 = 0 ∧
    (peripheral_cleanup zephyr_config
      { initial_globals zephyr_config with
        cis_create_count := 2, sem_iso_disconnected := ⟨1, 2⟩ } stack_ok).2.2 = [1] := by
  decide

/-- C10 (the code departs from it): a first responder session in which a stream is accepted and
reported disconnected before the orchestrator has counted the connection. `iso_disconnected`
divides by `total_iso_conn_count = 0`. -/
theorem c10_division_by_zero_reachable :
    run zephyr_config (initial_system zephyr_config)
      [.select_role ROLE_PERIPHERAL 'n' answers_keep stack_ok, .callback (.connected 0),
        .proceed stack_ok, .callback (.iso_accept fun _ => true), .proceed stack_ok,
        .callback (.iso_disconnected 5)] = some (.error .division_by_zero) ∧
    (∀ (g : Globals) (now : Int),
      iso_disconnected { g with total_iso_conn_count := 0 } now = .error .division_by_zero) := by
  refine ⟨rfl, ?_⟩
  intro g now
  simp [iso_disconnected, iso_disconnected_average]

/-! ### Transmit tick -/

theorem iso_timer_timeout_loop_spec (alloc_ok : Nat → Bool) (send_ret : Nat → Int) (sdu : Nat) :
    ∀ (remaining i iso_send_count : Nat) (actions : List tx_action),
      iso_send_count < 4294967296 →
      ∃ k, k ≤ remaining ∧
        (∀ m, m < k → alloc_ok (i + m) = true ∧ 0 ≤ send_ret (i + m)) ∧
        (k < remaining → alloc_ok (i + k) = false ∨ send_ret (i + k) < 0) ∧
        iso_timer_timeout_loop alloc_ok send_ret sdu remaining i iso_send_count actions
          = ((iso_send_count + k) % 4294967296,
              actions ++ accepted_submissions send_ret sdu i k
                ++ (if k < remaining then stopped_submission alloc_ok send_ret sdu (i + k)
                    else [])) := by
  intro remaining
  induction remaining with
  | zero =>
    intro i cnt actions hcnt
    refine ⟨0, le_refl 0, fun m hm => absurd hm (Nat.not_lt_zero m), fun h => absurd h (by simp),
      ?_⟩
    simp [iso_timer_timeout_loop, accepted_submissions, Nat.mod_eq_of_lt hcnt]
  | succ r ih =>
    intro i cnt actions hcnt
    by_cases ha : alloc_ok i = false
    · refine ⟨0, Nat.zero_le _, fun m hm => absurd hm (Nat.not_lt_zero m), fun _ => Or.inl ha,
        ?_⟩
      simp [iso_timer_timeout_loop, accepted_submissions, stopped_submission, ha,
        Nat.mod_eq_of_lt hcnt]
    · by_cases hs : send_ret i < 0
      · refine ⟨0, Nat.zero_le _, fun m hm => absurd hm (Nat.not_lt_zero m),
          fun _ => Or.inr hs, ?_⟩
        simp [iso_timer_timeout_loop, accepted_submissions, stopped_submission, ha, hs,
          Nat.mod_eq_of_lt hcnt]
      · have ha2 : alloc_ok i = true := by simpa using ha
        obtain ⟨k, hk, hall, hstop, heq⟩ := ih (i + 1) (u32 (cnt + 1))
          (actions ++ [.net_buf_alloc i true, .bt_iso_chan_send i sdu (send_ret i)])
          (Nat.mod_lt _ (by norm_num))
        refine ⟨k + 1, by omega, ?_, ?_, ?_⟩
        · intro m hm
          cases m with
          | zero => exact ⟨ha2, by simpa using hs⟩
          | succ m =>
            have := hall m (by omega)
            rw [show i + (m + 1) = i + 1 + m by omega]
            exact this
        · intro hlt
          rw [show i + (k + 1) = i + 1 + k by omega]
          exact hstop (by omega)
        · simp only [iso_timer_timeout_loop, ha2, Bool.true_eq_false, if_false, hs]
          rw [heq]
          have e1 : (u32 (cnt + 1) + k) % 4294967296 = (cnt + (k + 1)) % 4294967296 := by
            simp only [u32]; omega
          have e2 : (k + 1 < r + 1) = (k < r) := by simp
          rw [e1, show i + (k + 1) = i + 1 + k by omega]
          simp only [accepted_submissions, e2, List.append_assoc, List.cons_append,
            List.nil_append]

/-- C12: a transmit tick with `c = cis_create_count` streams first reschedules itself, then
allocates a buffer and submits a payload to the streams `0, ..., j - 1` in order, where `j` is the
first stream at which the allocation fails or the submission is rejected (`j = c` if there is
none); at stream `j` it only logs the failed allocation, or submits, is rejected and releases the
buffer; it makes no call for a later stream, adds `j` to `iso_send_count` modulo 2^32, and leaves
the work scheduled. -/
theorem c12_tick_submits_up_to_first_failure (g : Globals) (alloc_ok : Nat → Bool)
    (send_ret : Nat → Int) (hcount : g.iso_send_count < 2 ^ 32) :
    ∃ j, j ≤ g.cis_create_count ∧
      (∀ i, i < j → alloc_ok i = true ∧ 0 ≤ send_ret i) ∧
      (j < g.cis_create_count → alloc_ok j = false ∨ send_ret j < 0) ∧
      (iso_timer_timeout g alloc_ok send_ret).2
        = .k_work_reschedule (u32_sub g.iso_tx_qos.interval 100)
          :: (accepted_submissions send_ret g.iso_tx_qos.sdu 0 j
            ++ (if j < g.cis_create_count
                then stopped_submission alloc_ok send_ret g.iso_tx_qos.sdu j else [])) ∧
      (iso_timer_timeout g alloc_ok send_ret).1.iso_send_count
        = (g.iso_send_count + j) % 2 ^ 32 ∧
      (iso_timer_timeout g alloc_ok send_ret).1.iso_send_work_scheduled = true := by
  obtain ⟨k, hk, hall, hstop, heq⟩ := iso_timer_timeout_loop_spec alloc_ok send_ret
    g.iso_tx_qos.sdu g.cis_create_count 0 g.iso_send_count
    [.k_work_reschedule (u32_sub g.iso_tx_qos.interval 100)] (by norm_num at hcount; exact hcount)
  simp only [Nat.zero_add] at hall hstop heq
  refine ⟨k, hk, hall, hstop, ?_, ?_, rfl⟩
  · simp only [iso_timer_timeout, heq, List.cons_append, List.nil_append, List.append_assoc]
  · simp only [iso_timer_timeout, heq]
    norm_num

/-- Witness for C12: two streams, the submission to the second one rejected. -/
theorem c12_tick_submits_up_to_first_failure_witness :
    ∃ j, j ≤ 2 ∧
      (iso_timer_timeout (initial_globals zephyr_config) (fun _ => true)
          (fun i => if i = 1 then -5 else 0)).2
        = [.k_work_reschedule 7400, .net_buf_alloc 0 true, .bt_iso_chan_send 0 251 0,
            .net_buf_alloc 1 true, .bt_iso_chan_send 1 251 (-5), .net_buf_unref 1] ∧
      (iso_timer_timeout (initial_globals zephyr_config) (fun _ => true)
          (fun i => if i = 1 then -5 else 0)).1.iso_send_count = (0 + j) % 2 ^ 32 := by
  obtain ⟨j, hj, _, _, _, hc, _⟩ := c12_tick_submits_up_to_first_failure
    (initial_globals zephyr_config) (fun _ => true) (fun i => if i = 1 then -5 else 0)
    (by decide)
  exact ⟨j, hj, by decide, hc⟩

/-- C11 (the code departs from it): with `CONFIG_BT_ISO_TX_MTU = 251`, `parse_sdu_arg` accepts
4095, `change_central_settings` stores it in `iso_tx_qos.sdu` and returns 0, and the next
transmit tick copies 4095 bytes of `iso_data` into each buffer, although `iso_data` and the
buffers of `tx_pool` hold at most 251 bytes. -/
theorem c11_sdu_above_mtu_accepted :
    parse_sdu_arg zephyr_config (some 4095) = 4095 ∧
    ¬ (4095 ≤ zephyr_config.CONFIG_BT_ISO_TX_MTU) ∧
    (change_central_settings zephyr_config (initial_globals zephyr_config)
      (answers_tx_sdu (some 4095))).1 = 0 ∧
    (change_central_settings zephyr_config (initial_globals zephyr_config)
      (answers_tx_sdu (some 4095))).2.iso_tx_qos.sdu = 4095 ∧
    (iso_timer_timeout
      (change_central_settings zephyr_config (initial_globals zephyr_config)
        (answers_tx_sdu (some 4095))).2 (fun _ => true) (fun _ => 0)).2
      = [.k_work_reschedule 7400, .net_buf_alloc 0 true, .bt_iso_chan_send 0 4095 0,
          .net_buf_alloc 1 true, .bt_iso_chan_send 1 4095 0] := by
  decide

/-! ### The interval invariant -/

theorem parse_interval_arg_range (cfg : Config) (line : Option Nat) (hEINVAL : 0 < cfg.EINVAL)
    (h : ¬ parse_interval_arg cfg line < 0) :
    256 ≤ (parse_interval_arg cfg line).toNat ∧ (parse_interval_arg cfg line).toNat ≤ 1048575
      := by
  cases line with
  | none => simp [parse_interval_arg, DEFAULT_CIS_INTERVAL_US]
  | some v =>
    by_cases hv : v < 0x100 ∨ v > 0xFFFFF
    · simp only [parse_interval_arg, if_pos hv] at h
      omega
    · simp only [parse_interval_arg, if_neg hv, to_int_of_lt v (by omega), Int.toNat_ofNat]
      omega

theorem parse_args_result (cfg : Config) (qos : bt_iso_chan_io_qos) (a : qos_answers)
    (hEINVAL : 0 < cfg.EINVAL) :
    ((parse_args cfg qos a).1 = -(cfg.EINVAL : Int) ∧ (parse_args cfg qos a).2 = qos) ∨
    ((parse_args cfg qos a).1 = 0 ∧ 256 ≤ (parse_args cfg qos a).2.interval ∧
      (parse_args cfg qos a).2.interval ≤ 1048575) := by
  unfold parse_args
  dsimp only
  split_ifs with h1 h2 h3 h4 h5
  · exact Or.inl ⟨rfl, rfl⟩
  · exact Or.inl ⟨rfl, rfl⟩
  · exact Or.inl ⟨rfl, rfl⟩
  · exact Or.inl ⟨rfl, rfl⟩
  · exact Or.inl ⟨rfl, rfl⟩
  · exact Or.inr ⟨rfl, parse_interval_arg_range cfg a.interval hEINVAL h2⟩

theorem parse_args_interval (cfg : Config) (qos : bt_iso_chan_io_qos) (a : qos_answers)
    (hEINVAL : 0 < cfg.EINVAL) (h : 256 ≤ qos.interval ∧ qos.interval ≤ 1048575) :
    256 ≤ (parse_args cfg qos a).2.interval ∧ (parse_args cfg qos a).2.interval ≤ 1048575 := by
  rcases parse_args_result cfg qos a hEINVAL with ⟨_, h2⟩ | ⟨_, h2⟩
  · rw [h2]; exact h
  · exact h2

theorem change_cis_count_qos (cfg : Config) (g : Globals) (a : central_answers) :
    (change_cis_count cfg g a).2.iso_tx_qos = g.iso_tx_qos ∧
    (change_cis_count cfg g a).2.iso_rx_qos = g.iso_rx_qos := by
  unfold change_cis_count
  dsimp only
  split_ifs <;> exact ⟨rfl, rfl⟩

theorem change_rx_settings_interval (cfg : Config) (g : Globals) (a : central_answers)
    (hEINVAL : 0 < cfg.EINVAL)
    (htx : 256 ≤ g.iso_tx_qos.interval ∧ g.iso_tx_qos.interval ≤ 1048575)
    (hrx : 256 ≤ g.iso_rx_qos.interval ∧ g.iso_rx_qos.interval ≤ 1048575) :
    (256 ≤ (change_rx_settings cfg g a).2.iso_tx_qos.interval ∧
      (change_rx_settings cfg g a).2.iso_tx_qos.interval ≤ 1048575) ∧
    (256 ≤ (change_rx_settings cfg g a).2.iso_rx_qos.interval ∧
      (change_rx_settings cfg g a).2.iso_rx_qos.interval ≤ 1048575) := by
  have hp := parse_args_interval cfg g.iso_rx_qos a.rx_args hEINVAL hrx
  unfold change_rx_settings
  dsimp only
  split_ifs
  all_goals first
    | exact ⟨htx, hrx⟩
    | exact ⟨htx, hp⟩
    | (rw [(change_cis_count_qos cfg _ a).1, (change_cis_count_qos cfg _ a).2]
       first
         | exact ⟨htx, hrx⟩
         | exact ⟨htx, hp⟩
         | exact ⟨htx, htx⟩)

theorem change_central_settings_interval (cfg : Config) (g : Globals) (a : central_answers)
    (hEINVAL : 0 < cfg.EINVAL)
    (htx : 256 ≤ g.iso_tx_qos.interval ∧ g.iso_tx_qos.interval ≤ 1048575)
    (hrx : 256 ≤ g.iso_rx_qos.interval ∧ g.iso_rx_qos.interval ≤ 1048575) :
    (256 ≤ (change_central_settings cfg g a).2.iso_tx_qos.interval ∧
      (change_central_settings cfg g a).2.iso_tx_qos.interval ≤ 1048575) ∧
    (256 ≤ (change_central_settings cfg g a).2.iso_rx_qos.interval ∧
      (change_central_settings cfg g a).2.iso_rx_qos.interval ≤ 1048575) := by
  have hp := parse_args_interval cfg g.iso_tx_qos a.tx_args hEINVAL htx
  unfold change_central_settings
  dsimp only
  split_ifs
  · exact change_rx_settings_interval cfg _ a hEINVAL htx hrx
  · exact ⟨hp, hrx⟩
  · exact change_rx_settings_interval cfg _ a hEINVAL hp hrx
  · exact change_rx_settings_interval cfg _ a hEINVAL htx hrx

theorem change_central_settings_calls_interval (cfg : Config) (hEINVAL : 0 < cfg.EINVAL)
    (calls : List central_answers) :
    ∀ g : Globals, (256 ≤ g.iso_tx_qos.interval ∧ g.iso_tx_qos.interval ≤ 1048575) →
      (256 ≤ g.iso_rx_qos.interval ∧ g.iso_rx_qos.interval ≤ 1048575) →
      (256 ≤ (change_central_settings_calls cfg g calls).iso_tx_qos.interval ∧
        (change_central_settings_calls cfg g calls).iso_tx_qos.interval ≤ 1048575) ∧
      (256 ≤ (change_central_settings_calls cfg g calls).iso_rx_qos.interval ∧
        (change_central_settings_calls cfg g calls).iso_rx_qos.interval ≤ 1048575) := by
  induction calls with
  | nil => intro g htx hrx; exact ⟨htx, hrx⟩
  | cons a rest ih =>
    intro g htx hrx
    have h := change_central_settings_interval cfg g a hEINVAL htx hrx
    simpa only [change_central_settings_calls, List.foldl_cons] using
      ih (change_central_settings cfg g a).2 h.1 h.2

theorem iso_timer_timeout_loop_keeps_calls (alloc_ok : Nat → Bool) (send_ret : Nat → Int)
    (sdu : Nat) :
    ∀ (remaining i iso_send_count : Nat) (actions : List tx_action),
      ∃ rest, (iso_timer_timeout_loop alloc_ok send_ret sdu remaining i iso_send_count actions).2
        = actions ++ rest := by
  intro remaining
  induction remaining with
  | zero => intro i cnt actions; exact ⟨[], by simp [iso_timer_timeout_loop]⟩
  | succ r ih =>
    intro i cnt actions
    simp only [iso_timer_timeout_loop]
    split_ifs
    · exact ⟨_, rfl⟩
    · exact ⟨_, rfl⟩
    · obtain ⟨rest, hrest⟩ := ih (i + 1) (u32 (cnt + 1))
        (actions ++ [.net_buf_alloc i true, .bt_iso_chan_send i sdu (send_ret i)])
      exact ⟨_, by rw [hrest, List.append_assoc]⟩

theorem iso_timer_timeout_first_call (g : Globals) (alloc_ok : Nat → Bool)
    (send_ret : Nat → Int) :
    ∃ rest, (iso_timer_timeout g alloc_ok send_ret).2
      = .k_work_reschedule (u32_sub g.iso_tx_qos.interval 100) :: rest := by
  obtain ⟨rest, hrest⟩ := iso_timer_timeout_loop_keeps_calls alloc_ok send_ret
    g.iso_tx_qos.sdu g.cis_create_count 0 g.iso_send_count
    [.k_work_reschedule (u32_sub g.iso_tx_qos.interval 100)]
  exact ⟨rest, by simp only [iso_timer_timeout, hrest, List.cons_append, List.nil_append]⟩

/-- C13: after any sequence of `change_central_settings` calls from the initial configuration,
whatever they return, `iso_tx_qos.interval` and `iso_rx_qos.interval` lie in `[256, 1048575]`;
a `parse_args` call that returns `-EINVAL` leaves its QoS structure as it was; so the delay
`iso_tx_qos.interval - 100` that a transmit tick passes to `k_work_reschedule` does not wrap and
is at least 156 microseconds. (`EINVAL` is positive.) -/
theorem c13_interval_stays_in_range (cfg : Config) (calls : List central_answers)
    (hEINVAL : 0 < cfg.EINVAL) :
    (256 ≤ (change_central_settings_calls cfg (initial_globals cfg) calls).iso_tx_qos.interval ∧
      (change_central_settings_calls cfg (initial_globals cfg) calls).iso_tx_qos.interval
        ≤ 1048575) ∧
    (256 ≤ (change_central_settings_calls cfg (initial_globals cfg) calls).iso_rx_qos.interval ∧
      (change_central_settings_calls cfg (initial_globals cfg) calls).iso_rx_qos.interval
        ≤ 1048575) ∧
    (∀ (qos : bt_iso_chan_io_qos) (a : qos_answers),
      (parse_args cfg qos a).1 = -(cfg.EINVAL : Int) → (parse_args cfg qos a).2 = qos) ∧
    u32_sub (change_central_settings_calls cfg (initial_globals cfg) calls).iso_tx_qos.interval 100
      = (change_central_settings_calls cfg (initial_globals cfg) calls).iso_tx_qos.interval
        - 100 ∧
    156 ≤ u32_sub
      (change_central_settings_calls cfg (initial_globals cfg) calls).iso_tx_qos.interval 100 ∧
    (∀ (alloc_ok : Nat → Bool) (send_ret : Nat → Int),
      ∃ rest,
        (iso_timer_timeout (change_central_settings_calls cfg (initial_globals cfg) calls)
            alloc_ok send_ret).2
          = .k_work_reschedule
              ((change_central_settings_calls cfg (initial_globals cfg) calls).iso_tx_qos.interval
                - 100) :: rest) := by
  have h := change_central_settings_calls_interval cfg hEINVAL calls (initial_globals cfg)
    (by simp [initial_globals, DEFAULT_CIS_INTERVAL_US])
    (by simp [initial_globals, DEFAULT_CIS_INTERVAL_US])
  have hsub : u32_sub
      (change_central_settings_calls cfg (initial_globals cfg) calls).iso_tx_qos.interval 100
      = (change_central_settings_calls cfg (initial_globals cfg) calls).iso_tx_qos.interval
        - 100 := by
    simp only [u32_sub]; omega
  refine ⟨h.1, h.2, ?_, hsub, by rw [hsub]; omega, ?_⟩
  · intro qos a hfail
    rcases parse_args_result cfg qos a hEINVAL with ⟨_, h2⟩ | ⟨h1, _⟩
    · exact h2
    · rw [h1] at hfail; omega
  · intro alloc_ok send_ret
    obtain ⟨rest, hrest⟩ := iso_timer_timeout_first_call
      (change_central_settings_calls cfg (initial_globals cfg) calls) alloc_ok send_ret
    exact ⟨rest, by rw [hrest, ← hsub]⟩

/-- Witness for C13: one call that sets the TX interval to 256 and one that fails on an
interval of 255. -/
theorem c13_interval_stays_in_range_witness :
    (change_central_settings_calls zephyr_config (initial_globals zephyr_config)
      [{ answers_keep with
          change_tx := 'y', tx_args := { qos_answers_default with interval := some 256 } },
        { answers_keep with
          change_tx := 'y', tx_args := { qos_answers_default with interval := some 255 } }]
      ).iso_tx_qos.interval = 256 ∧
    156 ≤ u32_sub (change_central_settings_calls zephyr_config (initial_globals zephyr_config)
      [{ answers_keep with
          change_tx := 'y', tx_args := { qos_answers_default with interval := some 256 } },
        { answers_keep with
          change_tx := 'y', tx_args := { qos_answers_default with interval := some 255 } }]
      ).iso_tx_qos.interval 100 :=
  ⟨by decide,
    (c13_interval_stays_in_range zephyr_config
      [{ answers_keep with
          change_tx := 'y', tx_args := { qos_answers_default with interval := some 256 } },
        { answers_keep with
          change_tx := 'y', tx_args := { qos_answers_default with interval := some 255 } }]
      (by decide)).2.2.2.2.1⟩

end IsoBenchmark
